import Mathlib

/-!
# Broadcast handler of the ordering service

A shallow embedding of `orderer/common/broadcast/broadcast.go`.

The handler is a loop over a gRPC stream that calls out to four collaborators.
Every call that the Go code makes on the stream or on a collaborator is a
function on an explicit world state `σ`; the handler threads the state through
the calls in program order and records each call, with its result, in a trace.
A Go pair `(value, error)` is embedded as `Except`, a Go `error` result as
`Option GoError` (`none` is `nil`), and `(Support, bool)` as `Option Support`.
Logging calls are not modelled.
-/

namespace Broadcast

/-- Raw bytes, one natural number per byte. -/
abbrev Bytes := List Nat

/-- Go `error` values; `io.EOF` is the one value the handler compares against. -/
inductive GoError where
  | EOF
  | other (text : String)
  deriving DecidableEq

deriving instance DecidableEq for Except

/-- Modelled from the spec: the `Envelope` message of `protos/common`, a signed
container holding a payload and a signature, both binary. -/
structure Envelope where
  Payload : Bytes
  Signature : Bytes
  deriving DecidableEq

/-- Modelled from the spec: the `ChannelHeader` message of `protos/common`, with
a channel id, a transaction kind (an `int32` in the Go code) and opaque
extensions. -/
structure ChannelHeader where
  Type_ : Int
  ChannelId : String
  Extension : Bytes
  deriving DecidableEq

/-- Modelled from the spec: the `Header` message of `protos/common`; the channel
header is a pointer and may be nil. -/
structure Header where
  ChannelHeader : Option ChannelHeader
  deriving DecidableEq

/-- Modelled from the spec: the `Payload` message of `protos/common`; the header
is a pointer and may be nil. -/
structure Payload where
  Header : Option Header
  Data : Bytes
  deriving DecidableEq

/-- Modelled from the spec: the `Status` enumeration of `protos/common`, the
outcome reported for one processed envelope. -/
inductive Status where
  | SUCCESS
  | BAD_REQUEST
  | NOT_FOUND
  | SERVICE_UNAVAILABLE
  | INTERNAL_SERVER_ERROR
  deriving DecidableEq

/-- A reference to an object implementing the `Support` interface. Its methods
are dispatched through the reference, see `SupportManager`. -/
abbrev Support := Nat

/-- The parts of the protobuf library and of the generated code the handler
uses. `Unmarshal buf pb` is `proto.Unmarshal(buf, pb)`: it takes the bytes and
the value the message held before the call and gives the error and the value the
message holds after the call. `HeaderType_CONFIG_UPDATE` is the numeric value of
the enumeration constant of that name. -/
structure Proto where
  Unmarshal : Bytes → Payload → Option GoError × Payload
  HeaderType_CONFIG_UPDATE : Int

/-- The stream `ab.AtomicBroadcast_BroadcastServer`, over world states `σ`. -/
structure AtomicBroadcast_BroadcastServer (σ : Type) where
  Recv : σ → Except GoError Envelope × σ
  Send : Status → σ → Option GoError × σ

/-- The interface `SupportManager` (which includes `ConfigUpdateProcessor`),
together with the methods of the `Support` objects it hands out:
`Filters_Apply support env` is `support.Filters().Apply(env)`, of which the
handler keeps the error only, and `Enqueue support env` is
`support.Enqueue(env)`. -/
structure SupportManager (σ : Type) where
  Process : Envelope → σ → Except GoError Envelope × σ
  GetChain : String → σ → Option Support × σ
  Filters_Apply : Support → Envelope → σ → Option GoError × σ
  Enqueue : Support → Envelope → σ → Bool × σ

/-- The struct `handlerImpl`. -/
structure handlerImpl (σ : Type) where
  sm : SupportManager σ

/-- One call made by the handler, with its arguments and its result. -/
inductive Event where
  | Recv (r : Except GoError Envelope)
  | Send (st : Status) (err : Option GoError)
  | Process (env : Envelope) (r : Except GoError Envelope)
  | GetChain (chainID : String) (r : Option Support)
  | Apply (support : Support) (env : Envelope) (err : Option GoError)
  | Enqueue (support : Support) (env : Envelope) (ok : Bool)
  deriving DecidableEq

/-- How one pass through the body of the `for` loop ends: the loop goes round
again, or `Handle` returns the given error (`none` is `nil`). -/
inductive Flow where
  | next
  | ret (err : Option GoError)
  deriving DecidableEq

/-- The result of one pass through the loop body. -/
structure Iter (σ : Type) where
  flow : Flow
  state : σ
  trace : List Event
  deriving DecidableEq

/-- What is known of a run of `Handle` after a number of passes: `result` is
`none` while the loop is still running and `some err` once `Handle` has returned
`err`. -/
structure Run (σ : Type) where
  result : Option (Option GoError)
  state : σ
  trace : List Event
  deriving DecidableEq

/-- The guard of lines 87 and 100, negated: the channel header of a payload
whose header is not nil, whose channel header is not nil and whose channel id is
not empty. -/
def validChannelHeader (payload : Payload) : Option ChannelHeader :=
  match payload.Header with
  | none => none
  | some h =>
    match h.ChannelHeader with
    | none => none
    | some ch => if ch.ChannelId = "" then none else some ch

/-- The statement `return srv.Send(&ab.BroadcastResponse{Status: st})`, after
the calls recorded in `t`. -/
def reply {σ : Type} (srv : AtomicBroadcast_BroadcastServer σ) (st : Status) (s : σ)
    (t : List Event) : Iter σ :=
  let r := srv.Send st s
  { flow := Flow.ret r.1, state := r.2, trace := t ++ [Event.Send st r.1] }

/-- Lines 106 to 136 of `Handle`: lookup, filter, enqueue and the SUCCESS
response, for the envelope `msg` whose channel header is `ch`. -/
def route {σ : Type} (bh : handlerImpl σ) (srv : AtomicBroadcast_BroadcastServer σ)
    (msg : Envelope) (ch : ChannelHeader) (s : σ) (t : List Event) : Iter σ :=
  let g := bh.sm.GetChain ch.ChannelId s
  let t1 := t ++ [Event.GetChain ch.ChannelId g.1]
  match g.1 with
  | none => reply srv Status.NOT_FOUND g.2 t1
  | some support =>
    let f := bh.sm.Filters_Apply support msg g.2
    let t2 := t1 ++ [Event.Apply support msg f.1]
    match f.1 with
    | some _ => reply srv Status.BAD_REQUEST f.2 t2
    | none =>
      let q := bh.sm.Enqueue support msg f.2
      let t3 := t2 ++ [Event.Enqueue support msg q.1]
      if q.1 = false then reply srv Status.SERVICE_UNAVAILABLE q.2 t3
      else
        let r := srv.Send Status.SUCCESS q.2
        let t4 := t3 ++ [Event.Send Status.SUCCESS r.1]
        match r.1 with
        | some err => { flow := Flow.ret (some err), state := r.2, trace := t4 }
        | none => { flow := Flow.next, state := r.2, trace := t4 }

/-- Where lines 77 to 104 of `Handle` leave one pass: `stop it` when the pass
has ended there, or `proceed msg ch s t` when it goes on to line 106 with the
envelope `msg` in hand (as received, or as given by the processor), the channel
header `ch` of the payload parsed last, the world `s` and the calls `t` made so
far. -/
inductive Checked (σ : Type) where
  | stop (it : Iter σ)
  | proceed (msg : Envelope) (ch : ChannelHeader) (s : σ) (t : List Event)
  deriving DecidableEq

/-- Lines 77 to 104 of `Handle`: receive, parse and check the header, and for a
CONFIG_UPDATE process the envelope, then parse the result into the same payload
value and check it again. The error of `proto.Unmarshal` is assigned and never
read. -/
def intake {σ : Type} (pb : Proto) (bh : handlerImpl σ)
    (srv : AtomicBroadcast_BroadcastServer σ) (s : σ) : Checked σ :=
  let rv := srv.Recv s
  let t := [Event.Recv rv.1]
  match rv.1 with
  | Except.error err =>
    if err = GoError.EOF then
      Checked.stop { flow := Flow.ret none, state := rv.2, trace := t }
    else Checked.stop { flow := Flow.ret (some err), state := rv.2, trace := t }
  | Except.ok msg =>
    let payload := (pb.Unmarshal msg.Payload { Header := none, Data := [] }).2
    match validChannelHeader payload with
    | none => Checked.stop (reply srv Status.BAD_REQUEST rv.2 t)
    | some ch =>
      if ch.Type_ = pb.HeaderType_CONFIG_UPDATE then
        let p := bh.sm.Process msg rv.2
        let t1 := t ++ [Event.Process msg p.1]
        match p.1 with
        | Except.error _ => Checked.stop (reply srv Status.BAD_REQUEST p.2 t1)
        | Except.ok msg2 =>
          let payload2 := (pb.Unmarshal msg2.Payload payload).2
          match validChannelHeader payload2 with
          | none => Checked.stop (reply srv Status.INTERNAL_SERVER_ERROR p.2 t1)
          | some ch2 => Checked.proceed msg2 ch2 p.2 t1
      else Checked.proceed msg ch rv.2 t

/-- One pass through the body of the `for` loop of `Handle`, lines 77 to 136. -/
def HandleBody {σ : Type} (pb : Proto) (bh : handlerImpl σ)
    (srv : AtomicBroadcast_BroadcastServer σ) (s : σ) : Iter σ :=
  match intake pb bh srv s with
  | Checked.stop it => it
  | Checked.proceed msg ch s1 t => route bh srv msg ch s1 t

/-- The method `handlerImpl.Handle`, run for at most `fuel` passes through its
loop from the world state `s`. -/
def Handle {σ : Type} (pb : Proto) (bh : handlerImpl σ)
    (srv : AtomicBroadcast_BroadcastServer σ) : Nat → σ → Run σ
  | 0, s => { result := none, state := s, trace := [] }
  | fuel + 1, s =>
    let it := HandleBody pb bh srv s
    match it.flow with
    | Flow.ret err => { result := some err, state := it.state, trace := it.trace }
    | Flow.next =>
      let rest := Handle pb bh srv fuel it.state
      { result := rest.result, state := rest.state, trace := it.trace ++ rest.trace }

/-! ## Vocabulary for statements about traces -/

/-- Whether an event is a call on a collaborator (Process, GetChain, Apply or
Enqueue) rather than a call on the stream. -/
def Event.isCall : Event → Bool
  | Event.Recv _ => false
  | Event.Send _ _ => false
  | _ => true

/-- The statuses sent in a trace, in order. -/
def sent : List Event → List Status
  | [] => []
  | Event.Send st _ :: rest => st :: sent rest
  | _ :: rest => sent rest

/-- The envelopes received in a trace, in order. -/
def received : List Event → List Envelope
  | [] => []
  | Event.Recv (Except.ok msg) :: rest => msg :: received rest
  | _ :: rest => received rest

/-- Every Enqueue in the trace comes right after an Apply on the same support
and the same envelope that returned nil. -/
def EnqueueGuarded (tr : List Event) : Prop :=
  ∀ (before after : List Event) (support : Support) (env : Envelope) (ok : Bool),
    tr = before ++ Event.Enqueue support env ok :: after →
      ∃ before1, before = before1 ++ [Event.Apply support env none]

/-- The envelopes handed to Process in a trace, in order. -/
def processed : List Event → List Envelope
  | [] => []
  | Event.Process env _ :: rest => env :: processed rest
  | _ :: rest => processed rest

/-- The calls on collaborators in a trace, in order. -/
def calls (tr : List Event) : List Event :=
  tr.filter Event.isCall

/-- Modelled from the spec: `proto.Unmarshal` of the protobuf library, which
is not among the sources, as the envelope parser of the spec, a pure function
over raw bytes without side effects: the value of the message after the call
is `decode buf`, whatever the message held before the call. -/
def specProto (decode : Bytes → Option GoError × Payload) (configUpdate : Int) : Proto where
  Unmarshal := fun buf _ => decode buf
  HeaderType_CONFIG_UPDATE := configUpdate

/-! ## A sample world

A small concrete stream and set of collaborators, used to evaluate the handler
on concrete inputs. -/

namespace Sample

/-- The state of the sample world: what the client will still send, what the
handler has answered, what the ordering sink holds, whether the transport has
broken for sending, and whether the backend is shutting down. -/
structure World where
  inbox : List (Except GoError Envelope)
  outbox : List Status
  queue : List Envelope
  sendBroken : Bool
  halted : Bool
  deriving DecidableEq

/-- A toy wire format: no byte gives no header, one byte gives a header without
channel header, and otherwise the first byte is the type and the second selects
the channel id (0 the empty id, 1 the id `testchain`, any other `nochain`). -/
def pb : Proto where
  Unmarshal := fun buf _ =>
    match buf with
    | [] => (some (GoError.other "unexpected end"), { Header := none, Data := [] })
    | [_] => (none, { Header := some { ChannelHeader := none }, Data := [] })
    | t :: c :: d =>
      let ch : ChannelHeader :=
        { Type_ := t,
          ChannelId := if c = 0 then "" else if c = 1 then "testchain" else "nochain",
          Extension := [] }
      (none, { Header := some { ChannelHeader := some ch }, Data := d })
  HeaderType_CONFIG_UPDATE := 2

/-- The sample stream: `Recv` takes the next item of the inbox and reports
`io.EOF` when there is none; `Send` fails when the transport is broken and
otherwise appends to the outbox. -/
def srv : AtomicBroadcast_BroadcastServer World where
  Recv := fun w =>
    match w.inbox with
    | [] => (Except.error GoError.EOF, w)
    | r :: rest => (r, { w with inbox := rest })
  Send := fun st w =>
    if w.sendBroken then (some (GoError.other "broken pipe"), w)
    else (none, { w with outbox := w.outbox ++ [st] })

/-- The sample collaborators: the processor rejects an unsigned envelope and
otherwise gives the envelope whose payload is the signature of its input; the
registry knows the channel `testchain` only; the filter rejects payloads of
more than four bytes; the sink refuses when the backend is shutting down. -/
def sm : SupportManager World where
  Process := fun env w =>
    if env.Signature = [] then (Except.error (GoError.other "invalid config update"), w)
    else (Except.ok { Payload := env.Signature, Signature := [] }, w)
  GetChain := fun chainID w => if chainID = "testchain" then (some 7, w) else (none, w)
  Filters_Apply := fun _ env w =>
    if 4 < env.Payload.length then (some (GoError.other "message too large"), w) else (none, w)
  Enqueue := fun _ env w =>
    if w.halted then (false, w) else (true, { w with queue := w.queue ++ [env] })

/-- The handler over the sample collaborators. -/
def bh : handlerImpl World := { sm := sm }

/-- A fresh sample world in which the client sends the given envelopes. -/
def fresh (envs : List Envelope) : World :=
  { inbox := envs.map Except.ok, outbox := [], queue := [], sendBroken := false,
    halted := false }

/-- The envelope with the given payload and signature bytes. -/
def env (payload signature : Bytes) : Envelope :=
  { Payload := payload, Signature := signature }

/-- The sample world in which the client sends one valid envelope on the known
channel and the transport cannot send. -/
def brokenPipe : World :=
  { fresh [env [5, 1] []] with sendBroken := true }

/-- The sample world in which the client sends one valid envelope on the known
channel and the backend is shutting down. -/
def shuttingDown : World :=
  { fresh [env [5, 1] []] with halted := true }

/-- The sample world in which the client sends one valid envelope on the known
channel and the connection is then reset. -/
def resetAfterOne : World :=
  { inbox := [Except.ok (env [5, 1] []), Except.error (GoError.other "connection reset")],
    outbox := [], queue := [], sendBroken := false, halted := false }

/-- The sample world in which the client sends two valid envelopes on the known
channel and the transport cannot send. -/
def brokenPipeTwo : World :=
  { fresh [env [5, 1] [], env [6, 1] []] with sendBroken := true }

/-- Sample collaborators that are functions of their arguments: as `sm`, with
a sink that accepts whatever the world is. -/
def smPure : SupportManager World where
  Process := sm.Process
  GetChain := sm.GetChain
  Filters_Apply := sm.Filters_Apply
  Enqueue := fun _ env w => (true, { w with queue := w.queue ++ [env] })

/-- The handler over the collaborators `smPure`. -/
def bhPure : handlerImpl World := { sm := smPure }

end Sample

/-! ## The block listener

A shallow embedding of `examples/events/block-listener/block-listener.go`: the
functions `getTxPayload` and `getChainCodeEvents` and the loop of `main` over
the transaction slots of one received block. A nil pointer is `none`, and a
dereference of nil or an index out of range is a panic. The functions of
`protos/utils` and the filter bit array of `core/ledger/util` are not among the
sources and are parameters. The text of an error does not include the text of
the error it wraps. -/

namespace Listener

/-- How a call of a Go function ends: it returns a value or it panics. -/
inductive Outcome (α : Type) where
  | returned (v : α)
  | panicked
  deriving DecidableEq

/-- The part of the message `ChaincodeEvent` of `protos/peer` that the listener
reads. -/
structure ChaincodeEvent where
  ChaincodeId : String
  EventName : String
  deriving DecidableEq

/-- The part of the message `TransactionAction` that the listener reads. -/
structure TransactionAction where
  Payload : Bytes
  deriving DecidableEq

/-- The part of the message `Transaction` that the listener reads; the actions
are pointers. -/
structure Transaction where
  Actions : List (Option TransactionAction)
  deriving DecidableEq

/-- The part of the message `ChaincodeEndorsedAction` that the listener reads. -/
structure ChaincodeEndorsedAction where
  ProposalResponsePayload : Bytes
  deriving DecidableEq

/-- The part of the message `ChaincodeActionPayload` that the listener reads;
the action is a pointer. -/
structure ChaincodeActionPayload where
  Action : Option ChaincodeEndorsedAction
  deriving DecidableEq

/-- The part of the message `ProposalResponsePayload` that the listener reads. -/
structure ProposalResponsePayload where
  Extension : Bytes
  deriving DecidableEq

/-- The part of the message `ChaincodeAction` that the listener reads. -/
structure ChaincodeAction where
  Events : Bytes
  deriving DecidableEq

/-- The functions and constants the listener takes from packages that are not
among the sources. Each function of `protos/utils` gives a pointer and an error.
`IsSet filter i` is `util.NewFilterBitArrayFromBytes(filter).IsSet(uint(i))`. -/
structure Utils where
  GetEnvelopeFromBlock : Bytes → Option Envelope × Option GoError
  GetPayload : Envelope → Option Payload × Option GoError
  GetTransaction : Bytes → Option Transaction × Option GoError
  GetChaincodeActionPayload : Bytes → Option ChaincodeActionPayload × Option GoError
  GetProposalResponsePayload : Bytes → Option ProposalResponsePayload × Option GoError
  GetChaincodeAction : Bytes → Option ChaincodeAction × Option GoError
  GetChaincodeEvents : Bytes → Option ChaincodeEvent × Option GoError
  HeaderType_ENDORSER_TRANSACTION : Int
  IsSet : Bytes → Nat → Bool

/-- The function `getTxPayload`, lines 69 to 85; `tdata` is `none` for a nil
slice. -/
def getTxPayload (u : Utils) (tdata : Option Bytes) : Option Payload × Option GoError :=
  match tdata with
  | none => (none, some (GoError.other "Cannot extract payload from nil transaction"))
  | some data =>
    match u.GetEnvelopeFromBlock data with
    | (_, some _) => (none, some (GoError.other "Error getting tx from block"))
    | (some env, none) =>
      match u.GetPayload env with
      | (_, some _) =>
        (none, some (GoError.other "Could not extract payload from envelope"))
      | (payload, none) => (payload, none)
    | (none, none) => (none, none)

/-- The function `getChainCodeEvents`, lines 88 to 127; `tdata` is `none` for a
nil slice. The error of `utils.GetChaincodeEvents` is assigned and never
read. -/
def getChainCodeEvents (u : Utils) (tdata : Option Bytes) :
    Outcome (Option ChaincodeEvent × Option GoError) :=
  match tdata with
  | none =>
    Outcome.returned
      (none, some (GoError.other "Cannot extract payload from nil transaction"))
  | some data =>
    match u.GetEnvelopeFromBlock data with
    | (_, some _) =>
      Outcome.returned (none, some (GoError.other "Error getting tx from block"))
    | (none, none) => Outcome.returned (none, some (GoError.other "No events found"))
    | (some env, none) =>
      match u.GetPayload env with
      | (_, some _) =>
        Outcome.returned
          (none, some (GoError.other "Could not extract payload from envelope"))
      | (none, none) => Outcome.panicked
      | (some payload, none) =>
        match payload.Header with
        | none => Outcome.panicked
        | some h =>
          match h.ChannelHeader with
          | none => Outcome.panicked
          | some ch =>
            if ch.Type_ = u.HeaderType_ENDORSER_TRANSACTION then
              match u.GetTransaction payload.Data with
              | (_, some _) =>
                Outcome.returned (none, some (GoError.other
                  "Error unmarshalling transaction payload for block event"))
              | (none, none) => Outcome.panicked
              | (some tx, none) =>
                match tx.Actions with
                | [] => Outcome.panicked
                | none :: _ => Outcome.panicked
                | some action0 :: _ =>
                  match u.GetChaincodeActionPayload action0.Payload with
                  | (_, some _) =>
                    Outcome.returned (none, some (GoError.other
                      "Error unmarshalling transaction action payload for block event"))
                  | (none, none) => Outcome.panicked
                  | (some chaincodeActionPayload, none) =>
                    match chaincodeActionPayload.Action with
                    | none => Outcome.panicked
                    | some action =>
                      match u.GetProposalResponsePayload action.ProposalResponsePayload with
                      | (_, some _) =>
                        Outcome.returned (none, some (GoError.other
                          "Error unmarshalling proposal response payload for block event"))
                      | (none, none) => Outcome.panicked
                      | (some propRespPayload, none) =>
                        match u.GetChaincodeAction propRespPayload.Extension with
                        | (_, some _) =>
                          Outcome.returned (none, some (GoError.other
                            "Error unmarshalling chaincode action for block event"))
                        | (none, none) => Outcome.panicked
                        | (some caPayload, none) =>
                          match (u.GetChaincodeEvents caPayload.Events).1 with
                          | some ccEvent => Outcome.returned (some ccEvent, none)
                          | none =>
                            Outcome.returned (none, some (GoError.other "No events found"))
            else Outcome.returned (none, some (GoError.other "No events found"))

/-- What the loop of `main` does for the slot `i`: the calls of `getTxPayload`
and `getChainCodeEvents` and what it prints. `invalidBanner` is the output of
lines 157 to 160, `invalidTxId` that of line 161, `printTransaction` that of
line 164 and `printEvent` that of lines 167 to 169. -/
inductive Action where
  | getTxPayload (i : Nat) (r : Option Bytes)
  | invalidBanner (i : Nat)
  | invalidTxId (i : Nat) (ch : ChannelHeader)
  | printTransaction (i : Nat) (r : Option Bytes)
  | getChainCodeEvents (i : Nat) (r : Option Bytes)
  | printEvent (i : Nat) (event : ChaincodeEvent)
  deriving DecidableEq

/-- The actions of a part of the loop, and whether it ended in a panic. -/
structure Log where
  actions : List Action
  panicked : Bool
  deriving DecidableEq

/-- The body of the loop over the slots of a block, lines 154 to 172, for the
slot `i` holding `r`, with the filter bytes `txsFltr` of the block and the
command line value `chaincodeID`. -/
def slot (u : Utils) (chaincodeID : String) (txsFltr : Bytes) (i : Nat)
    (r : Option Bytes) : Log :=
  if u.IsSet txsFltr i = true then
    match (getTxPayload u r).1 with
    | none => { actions := [Action.getTxPayload i r], panicked := false }
    | some tx =>
      match tx.Header with
      | none =>
        { actions := [Action.getTxPayload i r, Action.invalidBanner i], panicked := true }
      | some h =>
        match h.ChannelHeader with
        | none =>
          { actions := [Action.getTxPayload i r, Action.invalidBanner i],
            panicked := true }
        | some ch =>
          { actions := [Action.getTxPayload i r, Action.invalidBanner i,
                        Action.invalidTxId i ch],
            panicked := false }
  else
    match getChainCodeEvents u r with
    | Outcome.panicked =>
      { actions := [Action.printTransaction i r, Action.getChainCodeEvents i r],
        panicked := true }
    | Outcome.returned (event, err) =>
      match err with
      | some _ =>
        { actions := [Action.printTransaction i r, Action.getChainCodeEvents i r],
          panicked := false }
      | none =>
        if chaincodeID.length ≠ 0 then
          match event with
          | none =>
            { actions := [Action.printTransaction i r, Action.getChainCodeEvents i r],
              panicked := true }
          | some ev =>
            if ev.ChaincodeId = chaincodeID then
              { actions := [Action.printTransaction i r, Action.getChainCodeEvents i r,
                            Action.printEvent i ev],
                panicked := false }
            else
              { actions := [Action.printTransaction i r, Action.getChainCodeEvents i r],
                panicked := false }
        else
          { actions := [Action.printTransaction i r, Action.getChainCodeEvents i r],
            panicked := false }

/-- The loop of `main` over the slots of one block, lines 153 to 173, from the
slot `i` on; a panic ends it. -/
def mainBlock (u : Utils) (chaincodeID : String) (txsFltr : Bytes) :
    Nat → List (Option Bytes) → Log
  | _, [] => { actions := [], panicked := false }
  | i, r :: rest =>
    let l := slot u chaincodeID txsFltr i r
    if l.panicked = true then l
    else
      let l2 := mainBlock u chaincodeID txsFltr (i + 1) rest
      { actions := l.actions ++ l2.actions, panicked := l2.panicked }

/-- Sample helpers: a slot of bytes `[t]` decodes to an envelope whose payload
has a header of type `t`, a slot starting with 255 does not decode, and the
empty slot decodes to an envelope whose payload has no header; a transaction has
one action, and its event is found when the data are not empty. The endorser
transaction type is 3 and bit `i` of the filter is bit `i mod 8` of byte
`i / 8`. -/
def sampleUtils : Utils where
  GetEnvelopeFromBlock := fun data =>
    match data with
    | 255 :: _ => (none, some (GoError.other "bad envelope"))
    | _ => (some { Payload := data, Signature := [] }, none)
  GetPayload := fun env =>
    match env.Payload with
    | [] => (some { Header := none, Data := [] }, none)
    | t :: d =>
      let ch : ChannelHeader := { Type_ := t, ChannelId := "testchain", Extension := [] }
      (some { Header := some { ChannelHeader := some ch }, Data := d }, none)
  GetTransaction := fun data => (some { Actions := [some { Payload := data }] }, none)
  GetChaincodeActionPayload := fun data =>
    (some { Action := some { ProposalResponsePayload := data } }, none)
  GetProposalResponsePayload := fun data => (some { Extension := data }, none)
  GetChaincodeAction := fun data => (some { Events := data }, none)
  GetChaincodeEvents := fun data =>
    match data with
    | [] => (none, none)
    | _ => (some { ChaincodeId := "mycc", EventName := "evt" }, none)
  HeaderType_ENDORSER_TRANSACTION := 3
  IsSet := fun filter i => decide ((filter.getD (i / 8) 0 / 2 ^ (i % 8)) % 2 = 1)

end Listener

/-! ## General facts about the embedding -/

/-- Running `k` passes that do not return and then `n` more is running `k + n`
passes. -/
theorem Handle_add {σ : Type} (pb : Proto) (bh : handlerImpl σ)
    (srv : AtomicBroadcast_BroadcastServer σ) (k n : Nat) (s : σ)
    (h : (Handle pb bh srv k s).result = none) :
    Handle pb bh srv (k + n) s =
      { result := (Handle pb bh srv n (Handle pb bh srv k s).state).result,
        state := (Handle pb bh srv n (Handle pb bh srv k s).state).state,
        trace := (Handle pb bh srv k s).trace
          ++ (Handle pb bh srv n (Handle pb bh srv k s).state).trace } := by
  induction k generalizing s with
  | zero => simp [Handle]
  | succ k ih =>
    have e : k + 1 + n = (k + n) + 1 := by omega
    rw [e]
    simp only [Handle] at h ⊢
    cases hf : (HandleBody pb bh srv s).flow with
    | ret err => simp [hf] at h
    | next =>
      simp only [hf] at h ⊢
      rw [ih _ h]
      simp

/-- A pass that returns ends the run, whatever fuel is left. -/
theorem Handle_ret {σ : Type} (pb : Proto) (bh : handlerImpl σ)
    (srv : AtomicBroadcast_BroadcastServer σ) (m : Nat) (s : σ) (err : Option GoError)
    (h : (HandleBody pb bh srv s).flow = Flow.ret err) :
    Handle pb bh srv (m + 1) s =
      { result := some err, state := (HandleBody pb bh srv s).state,
        trace := (HandleBody pb bh srv s).trace } := by
  simp [Handle, h]

/-- A pass that does not return is followed by the rest of the run. -/
theorem Handle_next {σ : Type} (pb : Proto) (bh : handlerImpl σ)
    (srv : AtomicBroadcast_BroadcastServer σ) (n : Nat) (s s1 : σ) (t : List Event)
    (hb : HandleBody pb bh srv s = { flow := Flow.next, state := s1, trace := t }) :
    Handle pb bh srv (n + 1) s =
      { result := (Handle pb bh srv n s1).result, state := (Handle pb bh srv n s1).state,
        trace := t ++ (Handle pb bh srv n s1).trace } := by
  simp [Handle, hb]

/-- A pass that returns, reached after `k` passes that did not, ends the run
with its trace appended to theirs. -/
theorem Handle_after {σ : Type} (pb : Proto) (bh : handlerImpl σ)
    (srv : AtomicBroadcast_BroadcastServer σ) (k m : Nat) (s0 s s1 : σ)
    (pre t : List Event) (err : Option GoError)
    (hrun : Handle pb bh srv k s0 = { result := none, state := s, trace := pre })
    (hb : HandleBody pb bh srv s = { flow := Flow.ret err, state := s1, trace := t }) :
    Handle pb bh srv (k + 1 + m) s0 = { result := some err, state := s1, trace := pre ++ t } := by
  have e : k + 1 + m = k + (m + 1) := by omega
  rw [e, Handle_add pb bh srv k (m + 1) s0 (by rw [hrun]), hrun]
  simp only []
  rw [Handle_ret pb bh srv m s err (by rw [hb]), hb]

/-- The guard of lines 87 and 100 in the words of the source: no valid channel
header exactly when the header is nil, or the channel header is nil, or the
channel id is empty. -/
theorem validChannelHeader_eq_none_iff (payload : Payload) :
    validChannelHeader payload = none ↔
      (payload.Header = none
        ∨ (∃ h, payload.Header = some h ∧ h.ChannelHeader = none)
        ∨ (∃ h ch, payload.Header = some h ∧ h.ChannelHeader = some ch ∧ ch.ChannelId = "")) := by
  unfold validChannelHeader
  cases hH : payload.Header with
  | none => simp
  | some h =>
    cases hC : h.ChannelHeader with
    | none => simp [hC]
    | some ch =>
      by_cases hid : ch.ChannelId = "" <;> simp [hC, hid]

/-! ## Facts about lists of events -/

/-- An element of a concatenation lies in the first part or in the second. -/
theorem append_eq_split {α : Type} (a b before after : List α) (x : α)
    (h : a ++ b = before ++ x :: after) :
    (∃ c, a = before ++ x :: c ∧ after = c ++ b)
      ∨ (∃ c, before = a ++ c ∧ b = c ++ x :: after) := by
  rw [List.append_eq_append_iff] at h
  rcases h with ⟨c, h1, h2⟩ | ⟨c, h1, h2⟩
  · exact Or.inr ⟨c, h1, h2⟩
  · cases c with
    | nil => exact Or.inr ⟨[], by simpa using h1.symm, by simpa using h2.symm⟩
    | cons y c =>
      simp only [List.cons_append, List.cons.injEq] at h2
      obtain ⟨rfl, h3⟩ := h2
      exact Or.inl ⟨c, h1, h3⟩

theorem sent_append (a b : List Event) : sent (a ++ b) = sent a ++ sent b := by
  induction a with
  | nil => rfl
  | cons x a ih => cases x <;> simp [sent, ih]

theorem received_append (a b : List Event) :
    received (a ++ b) = received a ++ received b := by
  induction a with
  | nil => rfl
  | cons x a ih =>
    cases x with
    | Recv r => cases r <;> simp [received, ih]
    | _ => simp [received, ih]

theorem sent_of_calls (mid : List Event) (h : ∀ ev ∈ mid, ev.isCall = true) :
    sent mid = [] := by
  induction mid with
  | nil => rfl
  | cons x mid ih =>
    have hx := h x (List.mem_cons_self _ _)
    have := ih (fun ev hev => h ev (List.mem_cons_of_mem _ hev))
    cases x <;> simp_all [sent, Event.isCall]

theorem received_of_calls (mid : List Event) (h : ∀ ev ∈ mid, ev.isCall = true) :
    received mid = [] := by
  induction mid with
  | nil => rfl
  | cons x mid ih =>
    have hx := h x (List.mem_cons_self _ _)
    have := ih (fun ev hev => h ev (List.mem_cons_of_mem _ hev))
    cases x <;> simp_all [received, Event.isCall]

theorem EnqueueGuarded_nil : EnqueueGuarded [] := by
  intro before after support env ok h
  simp at h

theorem EnqueueGuarded_single (x : Event)
    (hx : ∀ support env ok, x ≠ Event.Enqueue support env ok) : EnqueueGuarded [x] := by
  intro before after support env ok h
  cases before with
  | nil =>
    simp only [List.nil_append, List.cons.injEq] at h
    exact absurd h.1 (hx support env ok)
  | cons y before => simp at h

theorem EnqueueGuarded_append (a b : List Event) (ha : EnqueueGuarded a)
    (hb : EnqueueGuarded b) : EnqueueGuarded (a ++ b) := by
  intro before after support env ok h
  rcases append_eq_split a b before after _ h with ⟨c, h1, _⟩ | ⟨c, h1, h2⟩
  · exact ha before c support env ok h1
  · obtain ⟨c1, hc⟩ := hb c after support env ok h2
    exact ⟨a ++ c1, by rw [h1, hc, List.append_assoc]⟩

theorem EnqueueGuarded_apply_enqueue (support : Support) (env : Envelope) (ok : Bool) :
    EnqueueGuarded [Event.Apply support env none, Event.Enqueue support env ok] := by
  intro before after support1 env1 ok1 h
  rcases before with _ | ⟨p1, _ | ⟨p2, before⟩⟩
  · simp at h
  · simp only [List.cons_append, List.nil_append, List.cons.injEq] at h
    obtain ⟨rfl, h2, _⟩ := h
    cases h2
    exact ⟨[], rfl⟩
  · simp at h

/-- In a list that ends with its only Send, a Send can only be that last one. -/
theorem last_send_unique (a before after : List Event) (st0 st : Status)
    (r0 r : Option GoError) (ha : sent a = [])
    (h : a ++ [Event.Send st0 r0] = before ++ Event.Send st r :: after) :
    before = a ∧ st = st0 ∧ r = r0 ∧ after = [] := by
  rcases append_eq_split a _ before after _ h with ⟨c, h1, _⟩ | ⟨c, h1, h2⟩
  · rw [h1, sent_append] at ha
    simp [sent] at ha
  · cases c with
    | nil =>
      simp only [List.nil_append, List.cons.injEq, Event.Send.injEq] at h2
      obtain ⟨⟨h3, h4⟩, h5⟩ := h2
      exact ⟨by simpa using h1, h3.symm, h4.symm, h5.symm⟩
    | cons y c => simp at h2

/-! ## What one pass does on each path -/

/-- A pass that receives an envelope without valid channel header answers
BAD_REQUEST and returns. -/
theorem HandleBody_malformed {σ : Type} (pb : Proto) (bh : handlerImpl σ)
    (srv : AtomicBroadcast_BroadcastServer σ) (s s1 s2 : σ) (msg : Envelope)
    (r : Option GoError) (hrecv : srv.Recv s = (Except.ok msg, s1))
    (hbad : validChannelHeader
      (pb.Unmarshal msg.Payload { Header := none, Data := [] }).2 = none)
    (hsend : srv.Send Status.BAD_REQUEST s1 = (r, s2)) :
    HandleBody pb bh srv s =
      { flow := Flow.ret r, state := s2,
        trace := [Event.Recv (Except.ok msg), Event.Send Status.BAD_REQUEST r] } := by
  simp [HandleBody, intake, reply, hrecv, hbad, hsend]

/-- A pass whose Recv fails returns at once. -/
theorem HandleBody_recv_error {σ : Type} (pb : Proto) (bh : handlerImpl σ)
    (srv : AtomicBroadcast_BroadcastServer σ) (s s1 : σ) (err : GoError)
    (hrecv : srv.Recv s = (Except.error err, s1)) :
    HandleBody pb bh srv s =
      { flow := Flow.ret (if err = GoError.EOF then none else some err), state := s1,
        trace := [Event.Recv (Except.error err)] } := by
  by_cases h : err = GoError.EOF <;> simp [HandleBody, intake, hrecv, h]

/-- A pass whose envelope is a CONFIG_UPDATE that the processor rejects answers
BAD_REQUEST and returns. -/
theorem HandleBody_process_failed {σ : Type} (pb : Proto) (bh : handlerImpl σ)
    (srv : AtomicBroadcast_BroadcastServer σ) (s s1 s2 s3 : σ) (msg : Envelope)
    (ch : ChannelHeader) (perr : GoError) (r : Option GoError)
    (hrecv : srv.Recv s = (Except.ok msg, s1))
    (hvalid : validChannelHeader
      (pb.Unmarshal msg.Payload { Header := none, Data := [] }).2 = some ch)
    (htype : ch.Type_ = pb.HeaderType_CONFIG_UPDATE)
    (hproc : bh.sm.Process msg s1 = (Except.error perr, s2))
    (hsend : srv.Send Status.BAD_REQUEST s2 = (r, s3)) :
    HandleBody pb bh srv s =
      { flow := Flow.ret r, state := s3,
        trace := [Event.Recv (Except.ok msg), Event.Process msg (Except.error perr),
                  Event.Send Status.BAD_REQUEST r] } := by
  simp [HandleBody, intake, reply, hrecv, hvalid, htype, hproc, hsend]

/-- A pass whose envelope is a CONFIG_UPDATE that the processor turns into an
envelope without valid channel header answers INTERNAL_SERVER_ERROR and
returns. -/
theorem HandleBody_bad_result {σ : Type} (pb : Proto) (bh : handlerImpl σ)
    (srv : AtomicBroadcast_BroadcastServer σ) (s s1 s2 s3 : σ) (msg msg2 : Envelope)
    (ch : ChannelHeader) (r : Option GoError)
    (hrecv : srv.Recv s = (Except.ok msg, s1))
    (hvalid : validChannelHeader
      (pb.Unmarshal msg.Payload { Header := none, Data := [] }).2 = some ch)
    (htype : ch.Type_ = pb.HeaderType_CONFIG_UPDATE)
    (hproc : bh.sm.Process msg s1 = (Except.ok msg2, s2))
    (hbad : validChannelHeader (pb.Unmarshal msg2.Payload
      (pb.Unmarshal msg.Payload { Header := none, Data := [] }).2).2 = none)
    (hsend : srv.Send Status.INTERNAL_SERVER_ERROR s2 = (r, s3)) :
    HandleBody pb bh srv s =
      { flow := Flow.ret r, state := s3,
        trace := [Event.Recv (Except.ok msg), Event.Process msg (Except.ok msg2),
                  Event.Send Status.INTERNAL_SERVER_ERROR r] } := by
  simp [HandleBody, intake, reply, hrecv, hvalid, htype, hproc, hbad, hsend]

/-- An envelope that is not a CONFIG_UPDATE goes to the lookup as received. -/
theorem intake_plain {σ : Type} (pb : Proto) (bh : handlerImpl σ)
    (srv : AtomicBroadcast_BroadcastServer σ) (s s1 : σ) (msg : Envelope)
    (ch : ChannelHeader) (hrecv : srv.Recv s = (Except.ok msg, s1))
    (hvalid : validChannelHeader
      (pb.Unmarshal msg.Payload { Header := none, Data := [] }).2 = some ch)
    (htype : ch.Type_ ≠ pb.HeaderType_CONFIG_UPDATE) :
    intake pb bh srv s = Checked.proceed msg ch s1 [Event.Recv (Except.ok msg)] := by
  simp [intake, hrecv, hvalid, htype]

/-- A CONFIG_UPDATE that the processor turns into a validly headed envelope goes
to the lookup as that envelope, with the channel header parsed from it. -/
theorem intake_config_update {σ : Type} (pb : Proto) (bh : handlerImpl σ)
    (srv : AtomicBroadcast_BroadcastServer σ) (s s1 s2 : σ) (msg msg2 : Envelope)
    (ch ch2 : ChannelHeader) (hrecv : srv.Recv s = (Except.ok msg, s1))
    (hvalid : validChannelHeader
      (pb.Unmarshal msg.Payload { Header := none, Data := [] }).2 = some ch)
    (htype : ch.Type_ = pb.HeaderType_CONFIG_UPDATE)
    (hproc : bh.sm.Process msg s1 = (Except.ok msg2, s2))
    (hvalid2 : validChannelHeader (pb.Unmarshal msg2.Payload
      (pb.Unmarshal msg.Payload { Header := none, Data := [] }).2).2 = some ch2) :
    intake pb bh srv s =
      Checked.proceed msg2 ch2 s2
        [Event.Recv (Except.ok msg), Event.Process msg (Except.ok msg2)] := by
  simp [intake, hrecv, hvalid, htype, hproc, hvalid2]

/-- A pass that reaches the lookup ends as lines 106 to 136 end. -/
theorem HandleBody_of_proceed {σ : Type} (pb : Proto) (bh : handlerImpl σ)
    (srv : AtomicBroadcast_BroadcastServer σ) (s s1 : σ) (msg : Envelope)
    (ch : ChannelHeader) (t : List Event)
    (hin : intake pb bh srv s = Checked.proceed msg ch s1 t) :
    HandleBody pb bh srv s = route bh srv msg ch s1 t := by
  simp [HandleBody, hin]

/-- The two ways to the lookup: a pass goes on to line 106 exactly when it
received a validly headed envelope that either is not a CONFIG_UPDATE, and is
then the envelope in hand, or is a CONFIG_UPDATE that the processor turned into
a validly headed envelope, which is then the envelope in hand. -/
theorem intake_proceed_iff {σ : Type} (pb : Proto) (bh : handlerImpl σ)
    (srv : AtomicBroadcast_BroadcastServer σ) (s s2 : σ) (msg : Envelope)
    (ch : ChannelHeader) (t : List Event) :
    intake pb bh srv s = Checked.proceed msg ch s2 t ↔
      ∃ msg0 ch0, (srv.Recv s).1 = Except.ok msg0
        ∧ validChannelHeader
            (pb.Unmarshal msg0.Payload { Header := none, Data := [] }).2 = some ch0
        ∧ ((ch0.Type_ ≠ pb.HeaderType_CONFIG_UPDATE ∧ msg = msg0 ∧ ch = ch0
              ∧ s2 = (srv.Recv s).2 ∧ t = [Event.Recv (Except.ok msg0)])
          ∨ (ch0.Type_ = pb.HeaderType_CONFIG_UPDATE
              ∧ bh.sm.Process msg0 (srv.Recv s).2 = (Except.ok msg, s2)
              ∧ validChannelHeader (pb.Unmarshal msg.Payload
                  (pb.Unmarshal msg0.Payload { Header := none, Data := [] }).2).2 = some ch
              ∧ t = [Event.Recv (Except.ok msg0), Event.Process msg0 (Except.ok msg)])) := by
  constructor
  · intro h
    cases hr : (srv.Recv s).1 with
    | error err =>
      by_cases he : err = GoError.EOF <;> simp [intake, hr, he] at h
    | ok msg0 =>
      cases hv : validChannelHeader
          (pb.Unmarshal msg0.Payload { Header := none, Data := [] }).2 with
      | none => simp [intake, hr, hv] at h
      | some ch0 =>
        refine ⟨msg0, ch0, rfl, hv, ?_⟩
        by_cases ht : ch0.Type_ = pb.HeaderType_CONFIG_UPDATE
        · right
          cases hp : (bh.sm.Process msg0 (srv.Recv s).2).1 with
          | error perr => simp [intake, hr, hv, ht, hp] at h
          | ok msg2 =>
            cases hv2 : validChannelHeader (pb.Unmarshal msg2.Payload
                (pb.Unmarshal msg0.Payload { Header := none, Data := [] }).2).2 with
            | none => simp [intake, hr, hv, ht, hp, hv2] at h
            | some ch2 =>
              simp [intake, hr, hv, ht, hp, hv2] at h
              obtain ⟨h1, h2, h3, h4⟩ := h
              subst h1 h2
              exact ⟨ht, Prod.ext hp h3, hv2, h4.symm⟩
        · left
          simp [intake, hr, hv, ht] at h
          obtain ⟨h1, h2, h3, h4⟩ := h
          exact ⟨ht, h1.symm, h2.symm, h3.symm, h4.symm⟩
  · rintro ⟨msg0, ch0, hr, hv, h | h⟩
    · obtain ⟨ht, rfl, rfl, rfl, rfl⟩ := h
      exact intake_plain pb bh srv s _ msg ch (Prod.ext hr rfl) hv ht
    · obtain ⟨ht, hp, hv2, rfl⟩ := h
      exact intake_config_update pb bh srv s _ s2 msg0 msg ch0 ch (Prod.ext hr rfl) hv ht hp hv2

/-- Lookup of an unknown channel: NOT_FOUND, return. -/
theorem route_not_found {σ : Type} (bh : handlerImpl σ)
    (srv : AtomicBroadcast_BroadcastServer σ) (msg : Envelope) (ch : ChannelHeader)
    (s1 s2 s3 : σ) (t : List Event) (r : Option GoError)
    (hget : bh.sm.GetChain ch.ChannelId s1 = (none, s2))
    (hsend : srv.Send Status.NOT_FOUND s2 = (r, s3)) :
    route bh srv msg ch s1 t =
      { flow := Flow.ret r, state := s3,
        trace := t ++ [Event.GetChain ch.ChannelId none, Event.Send Status.NOT_FOUND r] } := by
  simp [route, reply, hget, hsend]

/-- Rejection by the filter chain: BAD_REQUEST, return. -/
theorem route_rejected {σ : Type} (bh : handlerImpl σ)
    (srv : AtomicBroadcast_BroadcastServer σ) (msg : Envelope) (ch : ChannelHeader)
    (s1 s2 s3 s4 : σ) (t : List Event) (support : Support) (ferr : GoError)
    (r : Option GoError)
    (hget : bh.sm.GetChain ch.ChannelId s1 = (some support, s2))
    (hfilter : bh.sm.Filters_Apply support msg s2 = (some ferr, s3))
    (hsend : srv.Send Status.BAD_REQUEST s3 = (r, s4)) :
    route bh srv msg ch s1 t =
      { flow := Flow.ret r, state := s4,
        trace := t ++ [Event.GetChain ch.ChannelId (some support),
                       Event.Apply support msg (some ferr),
                       Event.Send Status.BAD_REQUEST r] } := by
  simp [route, reply, hget, hfilter, hsend]

/-- Refusal by the sink: SERVICE_UNAVAILABLE, return. -/
theorem route_refused {σ : Type} (bh : handlerImpl σ)
    (srv : AtomicBroadcast_BroadcastServer σ) (msg : Envelope) (ch : ChannelHeader)
    (s1 s2 s3 s4 s5 : σ) (t : List Event) (support : Support) (r : Option GoError)
    (hget : bh.sm.GetChain ch.ChannelId s1 = (some support, s2))
    (hfilter : bh.sm.Filters_Apply support msg s2 = (none, s3))
    (henq : bh.sm.Enqueue support msg s3 = (false, s4))
    (hsend : srv.Send Status.SERVICE_UNAVAILABLE s4 = (r, s5)) :
    route bh srv msg ch s1 t =
      { flow := Flow.ret r, state := s5,
        trace := t ++ [Event.GetChain ch.ChannelId (some support),
                       Event.Apply support msg none,
                       Event.Enqueue support msg false,
                       Event.Send Status.SERVICE_UNAVAILABLE r] } := by
  simp [route, reply, hget, hfilter, henq, hsend]

/-- Acceptance by the sink: SUCCESS, and the loop goes round again when the
Send returned nil and returns the error of the Send otherwise. -/
theorem route_accepted {σ : Type} (bh : handlerImpl σ)
    (srv : AtomicBroadcast_BroadcastServer σ) (msg : Envelope) (ch : ChannelHeader)
    (s1 s2 s3 s4 s5 : σ) (t : List Event) (support : Support) (r : Option GoError)
    (hget : bh.sm.GetChain ch.ChannelId s1 = (some support, s2))
    (hfilter : bh.sm.Filters_Apply support msg s2 = (none, s3))
    (henq : bh.sm.Enqueue support msg s3 = (true, s4))
    (hsend : srv.Send Status.SUCCESS s4 = (r, s5)) :
    route bh srv msg ch s1 t =
      { flow := (match r with
          | some err => Flow.ret (some err)
          | none => Flow.next),
        state := s5,
        trace := t ++ [Event.GetChain ch.ChannelId (some support),
                       Event.Apply support msg none,
                       Event.Enqueue support msg true,
                       Event.Send Status.SUCCESS r] } := by
  cases r <;> simp [route, hget, hfilter, henq, hsend]

/-! ## The shape of one pass and of a run -/

/-- Lines 106 to 136 make collaborator calls, every Enqueue among them right
after an accepting Apply, and then exactly one Send; the loop goes round again
exactly when that Send is a SUCCESS that returned nil. -/
theorem route_shape {σ : Type} (bh : handlerImpl σ)
    (srv : AtomicBroadcast_BroadcastServer σ) (msg : Envelope) (ch : ChannelHeader)
    (s : σ) (t : List Event) :
    ∃ mid st r, (route bh srv msg ch s t).trace = t ++ (mid ++ [Event.Send st r])
      ∧ (∀ ev ∈ mid, ev.isCall = true) ∧ EnqueueGuarded mid
      ∧ (route bh srv msg ch s t).flow
          = (if st = Status.SUCCESS ∧ r = none then Flow.next else Flow.ret r) := by
  cases hg : (bh.sm.GetChain ch.ChannelId s).1 with
  | none =>
    refine ⟨[Event.GetChain ch.ChannelId none], Status.NOT_FOUND,
      (srv.Send Status.NOT_FOUND (bh.sm.GetChain ch.ChannelId s).2).1, ?_, ?_, ?_, ?_⟩
    · simp [route, reply, hg]
    · simp [Event.isCall]
    · exact EnqueueGuarded_single _ (by simp)
    · simp [route, reply, hg]
  | some support =>
    cases hf : (bh.sm.Filters_Apply support msg (bh.sm.GetChain ch.ChannelId s).2).1 with
    | some ferr =>
      refine ⟨[Event.GetChain ch.ChannelId (some support),
        Event.Apply support msg (some ferr)], Status.BAD_REQUEST,
        (srv.Send Status.BAD_REQUEST (bh.sm.Filters_Apply support msg
          (bh.sm.GetChain ch.ChannelId s).2).2).1, ?_, ?_, ?_, ?_⟩
      · simp [route, reply, hg, hf]
      · simp [Event.isCall]
      · exact EnqueueGuarded_append [_] [_] (EnqueueGuarded_single _ (by simp))
          (EnqueueGuarded_single _ (by simp))
      · simp [route, reply, hg, hf]
    | none =>
      cases hq : (bh.sm.Enqueue support msg (bh.sm.Filters_Apply support msg
          (bh.sm.GetChain ch.ChannelId s).2).2).1 with
      | false =>
        refine ⟨[Event.GetChain ch.ChannelId (some support), Event.Apply support msg none,
          Event.Enqueue support msg false], Status.SERVICE_UNAVAILABLE,
          (srv.Send Status.SERVICE_UNAVAILABLE (bh.sm.Enqueue support msg
            (bh.sm.Filters_Apply support msg (bh.sm.GetChain ch.ChannelId s).2).2).2).1,
          ?_, ?_, ?_, ?_⟩
        · simp [route, reply, hg, hf, hq]
        · simp [Event.isCall]
        · exact EnqueueGuarded_append [_] [_, _] (EnqueueGuarded_single _ (by simp))
            (EnqueueGuarded_apply_enqueue _ _ _)
        · simp [route, reply, hg, hf, hq]
      | true =>
        refine ⟨[Event.GetChain ch.ChannelId (some support), Event.Apply support msg none,
          Event.Enqueue support msg true], Status.SUCCESS,
          (srv.Send Status.SUCCESS (bh.sm.Enqueue support msg (bh.sm.Filters_Apply support msg
            (bh.sm.GetChain ch.ChannelId s).2).2).2).1, ?_, ?_, ?_, ?_⟩
        · cases hs : (srv.Send Status.SUCCESS (bh.sm.Enqueue support msg
            (bh.sm.Filters_Apply support msg (bh.sm.GetChain ch.ChannelId s).2).2).2).1 <;>
            simp [route, hg, hf, hq, hs]
        · simp [Event.isCall]
        · exact EnqueueGuarded_append [_] [_, _] (EnqueueGuarded_single _ (by simp))
            (EnqueueGuarded_apply_enqueue _ _ _)
        · cases hs : (srv.Send Status.SUCCESS (bh.sm.Enqueue support msg
            (bh.sm.Filters_Apply support msg (bh.sm.GetChain ch.ChannelId s).2).2).2).1 <;>
            simp [route, hg, hf, hq, hs]

/-- One pass is either a failed Recv, after which `Handle` returns, or the Recv
of an envelope, collaborator calls with every Enqueue right after an accepting
Apply, and exactly one Send; the loop goes round again exactly when that Send is
a SUCCESS that returned nil, and `Handle` returns the result of the Send
otherwise. -/
theorem HandleBody_shape {σ : Type} (pb : Proto) (bh : handlerImpl σ)
    (srv : AtomicBroadcast_BroadcastServer σ) (s : σ) :
    (∃ err, (HandleBody pb bh srv s).trace = [Event.Recv (Except.error err)]
        ∧ (HandleBody pb bh srv s).flow
            = Flow.ret (if err = GoError.EOF then none else some err))
      ∨ (∃ msg mid st r,
          (HandleBody pb bh srv s).trace
              = Event.Recv (Except.ok msg) :: (mid ++ [Event.Send st r])
            ∧ (∀ ev ∈ mid, ev.isCall = true) ∧ EnqueueGuarded mid
            ∧ (HandleBody pb bh srv s).flow
                = (if st = Status.SUCCESS ∧ r = none then Flow.next else Flow.ret r)) := by
  cases hr : (srv.Recv s).1 with
  | error err =>
    left
    have h := HandleBody_recv_error pb bh srv s _ err (Prod.ext hr rfl)
    exact ⟨err, by rw [h], by rw [h]⟩
  | ok msg =>
    right
    cases hv : validChannelHeader
        (pb.Unmarshal msg.Payload { Header := none, Data := [] }).2 with
    | none =>
      have h := HandleBody_malformed pb bh srv s _ _ msg _ (Prod.ext hr rfl) hv rfl
      exact ⟨msg, [], Status.BAD_REQUEST, _, by rw [h]; rfl, by simp, EnqueueGuarded_nil,
        by rw [h]; simp⟩
    | some ch =>
      by_cases ht : ch.Type_ = pb.HeaderType_CONFIG_UPDATE
      · cases hp : (bh.sm.Process msg (srv.Recv s).2).1 with
        | error perr =>
          have h := HandleBody_process_failed pb bh srv s _ _ _ msg ch perr _
            (Prod.ext hr rfl) hv ht (Prod.ext hp rfl) rfl
          exact ⟨msg, [Event.Process msg (Except.error perr)], Status.BAD_REQUEST, _,
            by rw [h]; rfl, by simp [Event.isCall], EnqueueGuarded_single _ (by simp),
            by rw [h]; simp⟩
        | ok msg2 =>
          cases hv2 : validChannelHeader (pb.Unmarshal msg2.Payload
              (pb.Unmarshal msg.Payload { Header := none, Data := [] }).2).2 with
          | none =>
            have h := HandleBody_bad_result pb bh srv s _ _ _ msg msg2 ch _
              (Prod.ext hr rfl) hv ht (Prod.ext hp rfl) hv2 rfl
            exact ⟨msg, [Event.Process msg (Except.ok msg2)], Status.INTERNAL_SERVER_ERROR,
              _, by rw [h]; rfl, by simp [Event.isCall], EnqueueGuarded_single _ (by simp),
              by rw [h]; simp⟩
          | some ch2 =>
            have h := HandleBody_of_proceed pb bh srv s _ msg2 ch2 _
              (intake_config_update pb bh srv s _ _ msg msg2 ch ch2 (Prod.ext hr rfl) hv ht
                (Prod.ext hp rfl) hv2)
            obtain ⟨mid, st, r, h1, h2, h3, h4⟩ := route_shape bh srv msg2 ch2
              (bh.sm.Process msg (srv.Recv s).2).2
              [Event.Recv (Except.ok msg), Event.Process msg (Except.ok msg2)]
            refine ⟨msg, Event.Process msg (Except.ok msg2) :: mid, st, r, ?_, ?_, ?_, ?_⟩
            · rw [h, h1]; simp
            · intro ev hev
              rcases List.mem_cons.mp hev with rfl | hev
              · rfl
              · exact h2 ev hev
            · exact EnqueueGuarded_append [_] mid (EnqueueGuarded_single _ (by simp)) h3
            · rw [h, h4]
      · have h := HandleBody_of_proceed pb bh srv s _ msg ch _
          (intake_plain pb bh srv s _ msg ch (Prod.ext hr rfl) hv ht)
        obtain ⟨mid, st, r, h1, h2, h3, h4⟩ := route_shape bh srv msg ch
          (srv.Recv s).2 [Event.Recv (Except.ok msg)]
        exact ⟨msg, mid, st, r, by rw [h, h1]; simp, h2, h3, by rw [h, h4]⟩

/-- A pass that does not return is followed by the rest of the run. -/
theorem Handle_succ_next {σ : Type} (pb : Proto) (bh : handlerImpl σ)
    (srv : AtomicBroadcast_BroadcastServer σ) (n : Nat) (s : σ)
    (hf : (HandleBody pb bh srv s).flow = Flow.next) :
    Handle pb bh srv (n + 1) s =
      { result := (Handle pb bh srv n (HandleBody pb bh srv s).state).result,
        state := (Handle pb bh srv n (HandleBody pb bh srv s).state).state,
        trace := (HandleBody pb bh srv s).trace
          ++ (Handle pb bh srv n (HandleBody pb bh srv s).state).trace } := by
  simp [Handle, hf]

/-- The calls of one pass begin with a Recv. -/
theorem HandleBody_trace_head {σ : Type} (pb : Proto) (bh : handlerImpl σ)
    (srv : AtomicBroadcast_BroadcastServer σ) (s : σ) :
    ∃ rv rest, (HandleBody pb bh srv s).trace = Event.Recv rv :: rest := by
  rcases HandleBody_shape pb bh srv s with ⟨err, h, _⟩ | ⟨msg, mid, st, r, h, _⟩
  · exact ⟨_, _, h⟩
  · exact ⟨_, _, h⟩

/-- The calls of a run of at least one pass begin with a Recv. -/
theorem Handle_trace_head {σ : Type} (pb : Proto) (bh : handlerImpl σ)
    (srv : AtomicBroadcast_BroadcastServer σ) (n : Nat) (s : σ) :
    ∃ rv rest, (Handle pb bh srv (n + 1) s).trace = Event.Recv rv :: rest := by
  obtain ⟨rv, rest, h⟩ := HandleBody_trace_head pb bh srv s
  cases hf : (HandleBody pb bh srv s).flow with
  | ret err => exact ⟨rv, rest, by rw [Handle_ret pb bh srv n s err hf, h]⟩
  | next => exact ⟨rv, _, by rw [Handle_succ_next pb bh srv n s hf, h]; rfl⟩

/-- A Send is the last call of its pass, and the pass goes round again exactly
when the Send is a SUCCESS that returned nil. -/
theorem HandleBody_send {σ : Type} (pb : Proto) (bh : handlerImpl σ)
    (srv : AtomicBroadcast_BroadcastServer σ) (s : σ) (before after : List Event)
    (st : Status) (r : Option GoError)
    (h : (HandleBody pb bh srv s).trace = before ++ Event.Send st r :: after) :
    after = [] ∧ (HandleBody pb bh srv s).flow
      = (if st = Status.SUCCESS ∧ r = none then Flow.next else Flow.ret r) := by
  rcases HandleBody_shape pb bh srv s with ⟨err, h1, _⟩ | ⟨msg, mid, st0, r0, h1, h2, _, h4⟩
  · rw [h1] at h
    rcases before with _ | ⟨p, _ | ⟨q, before⟩⟩ <;> simp at h
  · rw [h1] at h
    have hs : sent (Event.Recv (Except.ok msg) :: mid) = [] := by
      simp [sent, sent_of_calls mid h2]
    obtain ⟨_, h5, h6, h7⟩ := last_send_unique (Event.Recv (Except.ok msg) :: mid)
      before after st0 st r0 r hs (by simpa using h)
    exact ⟨h7, by rw [h4, h5, h6]⟩

/-- The calls of one pass have every Enqueue right after an accepting Apply. -/
theorem HandleBody_guarded {σ : Type} (pb : Proto) (bh : handlerImpl σ)
    (srv : AtomicBroadcast_BroadcastServer σ) (s : σ) :
    EnqueueGuarded (HandleBody pb bh srv s).trace := by
  rcases HandleBody_shape pb bh srv s with ⟨err, h, _⟩ | ⟨msg, mid, st, r, h, _, h3, _⟩
  · rw [h]
    exact EnqueueGuarded_single _ (by simp)
  · rw [h]
    exact EnqueueGuarded_append [_] (mid ++ [_]) (EnqueueGuarded_single _ (by simp))
      (EnqueueGuarded_append mid [_] h3 (EnqueueGuarded_single _ (by simp)))

/-- The calls of a run have every Enqueue right after an accepting Apply. -/
theorem Handle_guarded {σ : Type} (pb : Proto) (bh : handlerImpl σ)
    (srv : AtomicBroadcast_BroadcastServer σ) (fuel : Nat) (s : σ) :
    EnqueueGuarded (Handle pb bh srv fuel s).trace := by
  induction fuel generalizing s with
  | zero => exact EnqueueGuarded_nil
  | succ n ih =>
    cases hf : (HandleBody pb bh srv s).flow with
    | ret err =>
      rw [Handle_ret pb bh srv n s err hf]
      exact HandleBody_guarded pb bh srv s
    | next =>
      rw [Handle_succ_next pb bh srv n s hf]
      exact EnqueueGuarded_append _ _ (HandleBody_guarded pb bh srv s) (ih _)

/-- The statuses of a run are SUCCESS some number of times and then at most one
other status. -/
theorem Handle_sent {σ : Type} (pb : Proto) (bh : handlerImpl σ)
    (srv : AtomicBroadcast_BroadcastServer σ) (fuel : Nat) (s : σ) :
    ∃ n tail, sent (Handle pb bh srv fuel s).trace
        = List.replicate n Status.SUCCESS ++ tail
      ∧ tail.length ≤ 1 ∧ Status.SUCCESS ∉ tail := by
  induction fuel generalizing s with
  | zero => exact ⟨0, [], rfl, by simp, by simp⟩
  | succ k ih =>
    rcases HandleBody_shape pb bh srv s with ⟨err, h1, h2⟩ | ⟨msg, mid, st, r, h1, h2, _, h4⟩
    · rw [Handle_ret pb bh srv k s _ h2, h1]
      exact ⟨0, [], rfl, by simp, by simp⟩
    · have hs : sent (HandleBody pb bh srv s).trace = [st] := by
        rw [h1]
        simp [sent, sent_append, sent_of_calls mid h2]
      by_cases hc : st = Status.SUCCESS ∧ r = none
      · rw [if_pos hc] at h4
        obtain ⟨n, tail, h5, h6, h7⟩ := ih (HandleBody pb bh srv s).state
        refine ⟨n + 1, tail, ?_, h6, h7⟩
        rw [Handle_succ_next pb bh srv k s h4]
        simp only [sent_append, hs, h5, hc.1]
        simp [List.replicate_succ]
      · rw [if_neg hc] at h4
        rw [Handle_ret pb bh srv k s _ h4, hs]
        by_cases hst : st = Status.SUCCESS
        · exact ⟨1, [], by simp [hst], by simp, by simp⟩
        · exact ⟨0, [st], by simp, by simp, by simpa using Ne.symm hst⟩

/-- After a Send of a status other than SUCCESS the run is over: the Send is its
last call and `Handle` has returned the result of the Send. -/
theorem Handle_terminal {σ : Type} (pb : Proto) (bh : handlerImpl σ)
    (srv : AtomicBroadcast_BroadcastServer σ) (fuel : Nat) (s : σ)
    (before after : List Event) (st : Status) (r : Option GoError)
    (h : (Handle pb bh srv fuel s).trace = before ++ Event.Send st r :: after)
    (hst : st ≠ Status.SUCCESS) :
    after = [] ∧ (Handle pb bh srv fuel s).result = some r := by
  induction fuel generalizing s before with
  | zero => simp [Handle] at h
  | succ k ih =>
    cases hf : (HandleBody pb bh srv s).flow with
    | ret err =>
      rw [Handle_ret pb bh srv k s err hf] at h ⊢
      obtain ⟨h1, h2⟩ := HandleBody_send pb bh srv s before after st r h
      rw [if_neg (fun hc => hst hc.1), hf] at h2
      exact ⟨h1, by rw [Flow.ret.inj h2]⟩
    | next =>
      rw [Handle_succ_next pb bh srv k s hf] at h ⊢
      rcases append_eq_split _ _ before after _ h with ⟨c, h1, _⟩ | ⟨c, _, h2⟩
      · obtain ⟨_, h3⟩ := HandleBody_send pb bh srv s before c st r h1
        rw [if_neg (fun hc => hst hc.1), hf] at h3
        cases h3
      · exact ih _ c h2

/-- After a Send of SUCCESS that returned nil the run goes on: either no fuel is
left and `Handle` has not returned, or the next call is a Recv. -/
theorem Handle_success_continues {σ : Type} (pb : Proto) (bh : handlerImpl σ)
    (srv : AtomicBroadcast_BroadcastServer σ) (fuel : Nat) (s : σ)
    (before after : List Event)
    (h : (Handle pb bh srv fuel s).trace
      = before ++ Event.Send Status.SUCCESS none :: after) :
    (after = [] ∧ (Handle pb bh srv fuel s).result = none)
      ∨ ∃ rv rest, after = Event.Recv rv :: rest := by
  induction fuel generalizing s before with
  | zero => simp [Handle] at h
  | succ k ih =>
    cases hf : (HandleBody pb bh srv s).flow with
    | ret err =>
      rw [Handle_ret pb bh srv k s err hf] at h
      obtain ⟨_, h2⟩ := HandleBody_send pb bh srv s before after _ _ h
      rw [if_pos ⟨rfl, rfl⟩, hf] at h2
      cases h2
    | next =>
      rw [Handle_succ_next pb bh srv k s hf] at h ⊢
      rcases append_eq_split _ _ before after _ h with ⟨c, h1, h2⟩ | ⟨c, _, h2⟩
      · obtain ⟨h3, _⟩ := HandleBody_send pb bh srv s before c _ _ h1
        rw [h3, List.nil_append] at h2
        cases k with
        | zero => exact Or.inl ⟨by rw [h2]; rfl, rfl⟩
        | succ j =>
          obtain ⟨rv, rest, h4⟩ := Handle_trace_head pb bh srv j (HandleBody pb bh srv s).state
          exact Or.inr ⟨rv, rest, by rw [h2, h4]⟩
      · exact ih _ c h2

/-- A run that has not returned goes on with a Recv. -/
theorem Handle_running_recv {σ : Type} (pb : Proto) (bh : handlerImpl σ)
    (srv : AtomicBroadcast_BroadcastServer σ) (fuel : Nat) (s : σ)
    (h : (Handle pb bh srv fuel s).result = none) :
    ∃ rv rest, (Handle pb bh srv (fuel + 1) s).trace
      = (Handle pb bh srv fuel s).trace ++ Event.Recv rv :: rest := by
  obtain ⟨rv, rest, h1⟩ := Handle_trace_head pb bh srv 0 (Handle pb bh srv fuel s).state
  exact ⟨rv, rest, by rw [Handle_add pb bh srv fuel 1 s h, h1]⟩

/-- A run is a sequence of passes that each received an envelope, made
collaborator calls and sent one status, possibly followed by a failed Recv; and
it has sent as many statuses as it has received envelopes. -/
theorem Handle_segments {σ : Type} (pb : Proto) (bh : handlerImpl σ)
    (srv : AtomicBroadcast_BroadcastServer σ) (fuel : Nat) (s : σ) :
    (sent (Handle pb bh srv fuel s).trace).length
        = (received (Handle pb bh srv fuel s).trace).length
      ∧ ∃ (segs : List (List Event)) (last : List Event),
          (Handle pb bh srv fuel s).trace = segs.flatten ++ last
          ∧ (∀ seg ∈ segs, ∃ msg mid st r,
              seg = Event.Recv (Except.ok msg) :: (mid ++ [Event.Send st r])
              ∧ ∀ ev ∈ mid, ev.isCall = true)
          ∧ (last = [] ∨ ∃ err, last = [Event.Recv (Except.error err)]) := by
  induction fuel generalizing s with
  | zero => exact ⟨rfl, [], [], rfl, by simp, Or.inl rfl⟩
  | succ k ih =>
    rcases HandleBody_shape pb bh srv s with ⟨err, h1, h2⟩ | ⟨msg, mid, st, r, h1, h2, _, h4⟩
    · rw [Handle_ret pb bh srv k s _ h2, h1]
      exact ⟨rfl, [], _, rfl, by simp, Or.inr ⟨err, rfl⟩⟩
    · have hs : sent (HandleBody pb bh srv s).trace = [st] := by
        rw [h1]
        simp [sent, sent_append, sent_of_calls mid h2]
      have hr : received (HandleBody pb bh srv s).trace = [msg] := by
        rw [h1]
        simp [received, received_append, received_of_calls mid h2]
      cases hf : (HandleBody pb bh srv s).flow with
      | ret err =>
        rw [Handle_ret pb bh srv k s err hf]
        refine ⟨by simp [hs, hr], [(HandleBody pb bh srv s).trace], [], by simp, ?_,
          Or.inl rfl⟩
        intro seg hseg
        rw [List.mem_singleton] at hseg
        exact ⟨msg, mid, st, r, by rw [hseg, h1], h2⟩
      | next =>
        rw [Handle_succ_next pb bh srv k s hf]
        obtain ⟨h5, segs, last, h6, h7, h8⟩ := ih (HandleBody pb bh srv s).state
        refine ⟨by simp [sent_append, received_append, hs, hr, h5],
          (HandleBody pb bh srv s).trace :: segs, last, by simp [h6], ?_, h8⟩
        intro seg hseg
        rcases List.mem_cons.mp hseg with rfl | hseg
        · exact ⟨msg, mid, st, r, h1, h2⟩
        · exact h7 seg hseg

/-! ## The claims

In each statement the handler has made `k` passes from the world `s0` without
returning, which left the world `s` and the trace `pre`; the pass under study
is the next one, and `m` is any amount of further fuel. -/

/-- C1: whenever the handler receives an envelope whose payload parses to a nil
header, a nil channel header or an empty channel id, it makes exactly one
further call, the Send of BAD_REQUEST, and returns what that Send returned: the
run ends with the Recv and the Send, so Process, GetChain, Apply and Enqueue are
not invoked for that envelope. -/
theorem C1_malformed_envelope_bad_request {σ : Type} (pb : Proto) (bh : handlerImpl σ)
    (srv : AtomicBroadcast_BroadcastServer σ) (k m : Nat) (s0 s s1 s2 : σ)
    (pre : List Event) (msg : Envelope) (r : Option GoError)
    (hrun : Handle pb bh srv k s0 = { result := none, state := s, trace := pre })
    (hrecv : srv.Recv s = (Except.ok msg, s1))
    (hbad : (pb.Unmarshal msg.Payload { Header := none, Data := [] }).2.Header = none
      ∨ (∃ h, (pb.Unmarshal msg.Payload { Header := none, Data := [] }).2.Header = some h
          ∧ h.ChannelHeader = none)
      ∨ (∃ h ch, (pb.Unmarshal msg.Payload { Header := none, Data := [] }).2.Header = some h
          ∧ h.ChannelHeader = some ch ∧ ch.ChannelId = ""))
    (hsend : srv.Send Status.BAD_REQUEST s1 = (r, s2)) :
    Handle pb bh srv (k + 1 + m) s0 =
      { result := some r, state := s2,
        trace := pre ++ [Event.Recv (Except.ok msg), Event.Send Status.BAD_REQUEST r] } :=
  Handle_after pb bh srv k m s0 s s2 pre _ r hrun
    (HandleBody_malformed pb bh srv s s1 s2 msg r hrecv
      ((validChannelHeader_eq_none_iff _).mpr hbad) hsend)

/-- C1 on the sample world: after one accepted envelope, an envelope with an
empty channel id is answered BAD_REQUEST and the handler returns nil, with
nothing looked up, filtered or enqueued for it. -/
theorem C1_malformed_envelope_bad_request_witness :
    Handle Sample.pb Sample.bh Sample.srv 2
        (Sample.fresh [Sample.env [5, 1] [], Sample.env [5, 0] []]) =
      { result := some none,
        state := { inbox := [], outbox := [Status.SUCCESS, Status.BAD_REQUEST],
                   queue := [Sample.env [5, 1] []], sendBroken := false, halted := false },
        trace :=
          [Event.Recv (Except.ok (Sample.env [5, 1] [])), Event.GetChain "testchain" (some 7),
           Event.Apply 7 (Sample.env [5, 1] []) none,
           Event.Enqueue 7 (Sample.env [5, 1] []) true,
           Event.Send Status.SUCCESS none] ++
          [Event.Recv (Except.ok (Sample.env [5, 0] [])),
           Event.Send Status.BAD_REQUEST none] } :=
  C1_malformed_envelope_bad_request Sample.pb Sample.bh Sample.srv 1 0
    (Sample.fresh [Sample.env [5, 1] [], Sample.env [5, 0] []])
    { inbox := [Except.ok (Sample.env [5, 0] [])], outbox := [Status.SUCCESS],
      queue := [Sample.env [5, 1] []], sendBroken := false, halted := false }
    { inbox := [], outbox := [Status.SUCCESS],
      queue := [Sample.env [5, 1] []], sendBroken := false, halted := false }
    _ _ (Sample.env [5, 0] []) none
    (by decide) (by decide) (Or.inr (Or.inr ⟨_, _, rfl, rfl, rfl⟩)) (by decide)

/-- C2, as stated, fails: the stream delivers one valid envelope of a type
other than CONFIG_UPDATE on the known channel and then EOF, the registry finds
the channel, the filter chain accepts and the sink accepts, yet the Send of
SUCCESS fails, and the handler returns the error of that Send, not nil. -/
theorem C2_counterexample :
    Handle Sample.pb Sample.bh Sample.srv 2 Sample.brokenPipe =
        { result := some (some (GoError.other "broken pipe")),
          state := { inbox := [], outbox := [], queue := [Sample.env [5, 1] []],
                     sendBroken := true, halted := false },
          trace :=
            [Event.Recv (Except.ok (Sample.env [5, 1] [])),
             Event.GetChain "testchain" (some 7),
             Event.Apply 7 (Sample.env [5, 1] []) none,
             Event.Enqueue 7 (Sample.env [5, 1] []) true,
             Event.Send Status.SUCCESS (some (GoError.other "broken pipe"))] }
      ∧ (Sample.srv.Recv (Handle Sample.pb Sample.bh Sample.srv 1 Sample.brokenPipe).state).1
          = Except.error GoError.EOF
      ∧ (Handle Sample.pb Sample.bh Sample.srv 2 Sample.brokenPipe).result ≠ some none := by
  decide

/-- C2, amended: let the passes of the run be as many as there are envelopes in
`envs`, the pass `i` being one in which the Recv delivers the envelope `i` of
`envs`, which has a valid header of a type other than CONFIG_UPDATE, the
registry finds a support for its channel id, the filter chain of that support
accepts it, the sink accepts it and the Send of SUCCESS returns nil; and let the
Recv after them report EOF. Then the run is, envelope by envelope in receipt
order, the Recv of the envelope, the lookup, the filter, the Enqueue of that
envelope and the Send of SUCCESS, followed by the Recv that reports EOF, and
`Handle` returns nil. -/
theorem C2_accepted_sequence {σ : Type} (pb : Proto) (bh : handlerImpl σ)
    (srv : AtomicBroadcast_BroadcastServer σ) (envs : List Envelope) (m : Nat) (s0 : σ)
    (hpass : ∀ (i : Nat) (hi : i < envs.length), ∃ ch support a b c d,
      srv.Recv (Handle pb bh srv i s0).state = (Except.ok (envs.get ⟨i, hi⟩), a)
      ∧ validChannelHeader
          (pb.Unmarshal (envs.get ⟨i, hi⟩).Payload { Header := none, Data := [] }).2 = some ch
      ∧ ch.Type_ ≠ pb.HeaderType_CONFIG_UPDATE
      ∧ bh.sm.GetChain ch.ChannelId a = (some support, b)
      ∧ bh.sm.Filters_Apply support (envs.get ⟨i, hi⟩) b = (none, c)
      ∧ bh.sm.Enqueue support (envs.get ⟨i, hi⟩) c = (true, d)
      ∧ (srv.Send Status.SUCCESS d).1 = none)
    (heof : (srv.Recv (Handle pb bh srv envs.length s0).state).1
      = Except.error GoError.EOF) :
    ∃ segs : List (List Event),
      List.Forall₂
        (fun e seg => ∃ ch support,
          validChannelHeader
            (pb.Unmarshal e.Payload { Header := none, Data := [] }).2 = some ch
          ∧ seg = [Event.Recv (Except.ok e), Event.GetChain ch.ChannelId (some support),
                   Event.Apply support e none, Event.Enqueue support e true,
                   Event.Send Status.SUCCESS none])
        envs segs
      ∧ (Handle pb bh srv (envs.length + 1 + m) s0).result = some none
      ∧ (Handle pb bh srv (envs.length + 1 + m) s0).trace
          = segs.flatten ++ [Event.Recv (Except.error GoError.EOF)] := by
  induction envs generalizing s0 with
  | nil =>
    refine ⟨[], List.Forall₂.nil, ?_⟩
    have hr : srv.Recv s0 = (Except.error GoError.EOF, (srv.Recv s0).2) :=
      Prod.ext heof rfl
    have hb := HandleBody_recv_error pb bh srv s0 _ _ hr
    rw [show ([] : List Envelope).length + 1 + m = m + 1 by simp; omega,
      Handle_ret pb bh srv m s0 none (by rw [hb]; simp), hb]
    simp
  | cons e es ih =>
    obtain ⟨ch, support, a, b, c, d, hr, hvalid, htype, hget, hfil, henq, hsend⟩ :=
      hpass 0 (by simp)
    have hb : HandleBody pb bh srv s0 =
        { flow := Flow.next, state := (srv.Send Status.SUCCESS d).2,
          trace := [Event.Recv (Except.ok e), Event.GetChain ch.ChannelId (some support),
                   Event.Apply support e none, Event.Enqueue support e true,
                   Event.Send Status.SUCCESS none] } := by
      rw [HandleBody_of_proceed pb bh srv s0 a e ch _
            (intake_plain pb bh srv s0 a e ch hr hvalid htype),
          route_accepted bh srv e ch a b c d _ _ support none hget hfil henq
            (Prod.ext hsend rfl)]
      simp
    have hstep : ∀ n, Handle pb bh srv (n + 1) s0 = _ := fun n =>
      Handle_next pb bh srv n s0 _ _ hb
    obtain ⟨segs, hsegs, hres, htr⟩ := ih (srv.Send Status.SUCCESS d).2
      (fun i hi => by
        have h := hpass (i + 1) (by simpa using hi)
        rw [hstep i] at h
        simpa using h)
      (by
        have h := heof
        rw [show (e :: es).length = es.length + 1 by simp, hstep es.length] at h
        exact h)
    refine ⟨_ :: segs, List.Forall₂.cons ⟨ch, support, hvalid, rfl⟩ hsegs, ?_⟩
    rw [show (e :: es).length + 1 + m = (es.length + 1 + m) + 1 by simp; omega,
      hstep (es.length + 1 + m)]
    simp [hres, htr]

/-- C2 on the sample world: two valid envelopes on the known channel, then EOF;
the handler enqueues both in order, answers SUCCESS twice and returns nil. -/
theorem C2_accepted_sequence_witness :
    ∃ segs : List (List Event),
      List.Forall₂
        (fun e seg => ∃ ch support,
          validChannelHeader
            (Sample.pb.Unmarshal e.Payload { Header := none, Data := [] }).2 = some ch
          ∧ seg = [Event.Recv (Except.ok e), Event.GetChain ch.ChannelId (some support),
                   Event.Apply support e none, Event.Enqueue support e true,
                   Event.Send Status.SUCCESS none])
        [Sample.env [5, 1] [], Sample.env [6, 1, 9] []] segs
      ∧ (Handle Sample.pb Sample.bh Sample.srv (2 + 1 + 0)
          (Sample.fresh [Sample.env [5, 1] [], Sample.env [6, 1, 9] []])).result = some none
      ∧ (Handle Sample.pb Sample.bh Sample.srv (2 + 1 + 0)
          (Sample.fresh [Sample.env [5, 1] [], Sample.env [6, 1, 9] []])).trace
          = segs.flatten ++ [Event.Recv (Except.error GoError.EOF)] :=
  C2_accepted_sequence Sample.pb Sample.bh Sample.srv
    [Sample.env [5, 1] [], Sample.env [6, 1, 9] []] 0
    (Sample.fresh [Sample.env [5, 1] [], Sample.env [6, 1, 9] []])
    (fun i hi =>
      match i, hi with
      | 0, _ => ⟨_, 7, _, _, _, _, rfl, rfl, by decide, rfl, rfl, rfl, rfl⟩
      | 1, _ => ⟨_, 7, _, _, _, _, rfl, rfl, by decide, rfl, rfl, rfl, rfl⟩
      | n + 2, h => absurd h (by simp))
    (by decide)

/-- C3, as stated, fails for a CONFIG_UPDATE: the received envelope has a valid
header whose channel id, `nochain`, the registry does not know, and the handler
does not answer NOT_FOUND. When the processor rejects the envelope the answer is
BAD_REQUEST and GetChain is never called; when the processor gives an envelope
on a known channel the lookup is made with the id of that envelope and the
received one is answered SUCCESS, after Apply and Enqueue. -/
theorem C3_counterexample :
    validChannelHeader (Sample.pb.Unmarshal [2, 2] { Header := none, Data := [] }).2
        = some { Type_ := 2, ChannelId := "nochain", Extension := [] }
      ∧ (Sample.sm.GetChain "nochain" (Sample.fresh [])).1 = none
      ∧ Handle Sample.pb Sample.bh Sample.srv 1 (Sample.fresh [Sample.env [2, 2] []]) =
        { result := some none,
          state := { inbox := [], outbox := [Status.BAD_REQUEST], queue := [],
                     sendBroken := false, halted := false },
          trace :=
            [Event.Recv (Except.ok (Sample.env [2, 2] [])),
             Event.Process (Sample.env [2, 2] [])
               (Except.error (GoError.other "invalid config update")),
             Event.Send Status.BAD_REQUEST none] }
      ∧ Handle Sample.pb Sample.bh Sample.srv 1 (Sample.fresh [Sample.env [2, 2] [5, 1]]) =
        { result := none,
          state := { inbox := [], outbox := [Status.SUCCESS],
                     queue := [Sample.env [5, 1] []], sendBroken := false, halted := false },
          trace :=
            [Event.Recv (Except.ok (Sample.env [2, 2] [5, 1])),
             Event.Process (Sample.env [2, 2] [5, 1]) (Except.ok (Sample.env [5, 1] [])),
             Event.GetChain "testchain" (some 7),
             Event.Apply 7 (Sample.env [5, 1] []) none,
             Event.Enqueue 7 (Sample.env [5, 1] []) true,
             Event.Send Status.SUCCESS none] } := by
  decide

/-- C3, amended: whenever a pass reaches the lookup with the envelope `msg` in
hand, which is the received envelope when that is not a CONFIG_UPDATE and the
validly headed output of the processor when it is, and GetChain reports
not-found for the channel id `ch.ChannelId` parsed from `msg`, the handler makes
exactly one further call, the Send of NOT_FOUND, and returns what that Send
returned; the calls of the pass are the Recv, the Process of a CONFIG_UPDATE,
the GetChain and the Send, so neither Apply nor Enqueue is invoked. -/
theorem C3_unknown_channel_not_found {σ : Type} (pb : Proto) (bh : handlerImpl σ)
    (srv : AtomicBroadcast_BroadcastServer σ) (k m : Nat) (s0 s s1 s2 s3 : σ)
    (pre t : List Event) (msg : Envelope) (ch : ChannelHeader) (r : Option GoError)
    (hrun : Handle pb bh srv k s0 = { result := none, state := s, trace := pre })
    (hin : intake pb bh srv s = Checked.proceed msg ch s1 t)
    (hget : bh.sm.GetChain ch.ChannelId s1 = (none, s2))
    (hsend : srv.Send Status.NOT_FOUND s2 = (r, s3)) :
    Handle pb bh srv (k + 1 + m) s0 =
        { result := some r, state := s3,
          trace := pre ++
            (t ++ [Event.GetChain ch.ChannelId none, Event.Send Status.NOT_FOUND r]) }
      ∧ (t = [Event.Recv (Except.ok msg)]
          ∨ ∃ msg0, t = [Event.Recv (Except.ok msg0), Event.Process msg0 (Except.ok msg)]) := by
  refine ⟨Handle_after pb bh srv k m s0 s s3 pre _ r hrun ?_, ?_⟩
  · rw [HandleBody_of_proceed pb bh srv s s1 msg ch t hin,
      route_not_found bh srv msg ch s1 s2 s3 t r hget hsend]
  · obtain ⟨msg0, ch0, _, _, h | h⟩ := (intake_proceed_iff pb bh srv s s1 msg ch t).mp hin
    · exact Or.inl (by rw [h.2.2.2.2, h.2.1])
    · exact Or.inr ⟨msg0, h.2.2.2⟩

/-- C3 on the sample world: a CONFIG_UPDATE on the known channel that the
processor turns into an envelope on the unknown channel `nochain` is answered
NOT_FOUND, with nothing filtered or enqueued. -/
theorem C3_unknown_channel_not_found_witness :
    Handle Sample.pb Sample.bh Sample.srv (0 + 1 + 0)
        (Sample.fresh [Sample.env [2, 1] [5, 9]]) =
        { result := some none,
          state := { inbox := [], outbox := [Status.NOT_FOUND], queue := [],
                     sendBroken := false, halted := false },
          trace := [] ++
            ([Event.Recv (Except.ok (Sample.env [2, 1] [5, 9])),
              Event.Process (Sample.env [2, 1] [5, 9]) (Except.ok (Sample.env [5, 9] []))]
              ++ [Event.GetChain "nochain" none, Event.Send Status.NOT_FOUND none]) }
      ∧ ([Event.Recv (Except.ok (Sample.env [2, 1] [5, 9])),
          Event.Process (Sample.env [2, 1] [5, 9]) (Except.ok (Sample.env [5, 9] []))]
            = [Event.Recv (Except.ok (Sample.env [5, 9] []))]
          ∨ ∃ msg0,
            [Event.Recv (Except.ok (Sample.env [2, 1] [5, 9])),
             Event.Process (Sample.env [2, 1] [5, 9]) (Except.ok (Sample.env [5, 9] []))]
              = [Event.Recv (Except.ok msg0),
                 Event.Process msg0 (Except.ok (Sample.env [5, 9] []))]) :=
  C3_unknown_channel_not_found Sample.pb Sample.bh Sample.srv 0 0
    (Sample.fresh [Sample.env [2, 1] [5, 9]]) (Sample.fresh [Sample.env [2, 1] [5, 9]])
    (Sample.fresh []) (Sample.fresh [])
    { inbox := [], outbox := [Status.NOT_FOUND], queue := [], sendBroken := false,
      halted := false }
    [] _ (Sample.env [5, 9] []) { Type_ := 5, ChannelId := "nochain", Extension := [] } none
    (by decide) (by decide) (by decide) (by decide)

/-- C4: whenever the handler receives an envelope with a valid header of type
CONFIG_UPDATE and Process returns an error on it, the handler makes exactly one
further call, the Send of BAD_REQUEST, and returns what that Send returned: the
calls of the pass are the Recv, the Process and the Send, so GetChain, Apply
and Enqueue are not invoked. -/
theorem C4_processor_failure_bad_request {σ : Type} (pb : Proto) (bh : handlerImpl σ)
    (srv : AtomicBroadcast_BroadcastServer σ) (k m : Nat) (s0 s s1 s2 s3 : σ)
    (pre : List Event) (msg : Envelope) (ch : ChannelHeader) (perr : GoError)
    (r : Option GoError)
    (hrun : Handle pb bh srv k s0 = { result := none, state := s, trace := pre })
    (hrecv : srv.Recv s = (Except.ok msg, s1))
    (hvalid : validChannelHeader
      (pb.Unmarshal msg.Payload { Header := none, Data := [] }).2 = some ch)
    (htype : ch.Type_ = pb.HeaderType_CONFIG_UPDATE)
    (hproc : bh.sm.Process msg s1 = (Except.error perr, s2))
    (hsend : srv.Send Status.BAD_REQUEST s2 = (r, s3)) :
    Handle pb bh srv (k + 1 + m) s0 =
      { result := some r, state := s3,
        trace := pre ++
          [Event.Recv (Except.ok msg), Event.Process msg (Except.error perr),
           Event.Send Status.BAD_REQUEST r] } :=
  Handle_after pb bh srv k m s0 s s3 pre _ r hrun
    (HandleBody_process_failed pb bh srv s s1 s2 s3 msg ch perr r hrecv hvalid htype hproc
      hsend)

/-- C4 on the sample world: an unsigned CONFIG_UPDATE on the known channel is
rejected by the processor and answered BAD_REQUEST. -/
theorem C4_processor_failure_bad_request_witness :
    Handle Sample.pb Sample.bh Sample.srv (0 + 1 + 0)
        (Sample.fresh [Sample.env [2, 1] []]) =
      { result := some none,
        state := { inbox := [], outbox := [Status.BAD_REQUEST], queue := [],
                   sendBroken := false, halted := false },
        trace := [] ++
          [Event.Recv (Except.ok (Sample.env [2, 1] [])),
           Event.Process (Sample.env [2, 1] [])
             (Except.error (GoError.other "invalid config update")),
           Event.Send Status.BAD_REQUEST none] } :=
  C4_processor_failure_bad_request Sample.pb Sample.bh Sample.srv 0 0
    (Sample.fresh [Sample.env [2, 1] []]) (Sample.fresh [Sample.env [2, 1] []])
    (Sample.fresh []) (Sample.fresh [])
    { inbox := [], outbox := [Status.BAD_REQUEST], queue := [], sendBroken := false,
      halted := false }
    [] (Sample.env [2, 1] []) { Type_ := 2, ChannelId := "testchain", Extension := [] }
    (GoError.other "invalid config update") none
    (by decide) (by decide) (by decide) (by decide) (by decide) (by decide)

/-- C5: whenever the handler receives an envelope with a valid header of type
CONFIG_UPDATE on which Process succeeds, and the payload of the envelope that
Process returned, parsed into the payload value of the first parse, has a nil
header, a nil channel header or an empty channel id, the handler makes exactly
one further call, the Send of INTERNAL_SERVER_ERROR, and returns what that Send
returned: the calls of the pass are the Recv, the Process and the Send, so
GetChain, Apply and Enqueue are not invoked. -/
theorem C5_processor_bad_output_internal_error {σ : Type} (pb : Proto)
    (bh : handlerImpl σ) (srv : AtomicBroadcast_BroadcastServer σ) (k m : Nat)
    (s0 s s1 s2 s3 : σ) (pre : List Event) (msg msg2 : Envelope) (ch : ChannelHeader)
    (r : Option GoError)
    (hrun : Handle pb bh srv k s0 = { result := none, state := s, trace := pre })
    (hrecv : srv.Recv s = (Except.ok msg, s1))
    (hvalid : validChannelHeader
      (pb.Unmarshal msg.Payload { Header := none, Data := [] }).2 = some ch)
    (htype : ch.Type_ = pb.HeaderType_CONFIG_UPDATE)
    (hproc : bh.sm.Process msg s1 = (Except.ok msg2, s2))
    (hbad : (pb.Unmarshal msg2.Payload
        (pb.Unmarshal msg.Payload { Header := none, Data := [] }).2).2.Header = none
      ∨ (∃ h, (pb.Unmarshal msg2.Payload
            (pb.Unmarshal msg.Payload { Header := none, Data := [] }).2).2.Header = some h
          ∧ h.ChannelHeader = none)
      ∨ (∃ h ch2, (pb.Unmarshal msg2.Payload
            (pb.Unmarshal msg.Payload { Header := none, Data := [] }).2).2.Header = some h
          ∧ h.ChannelHeader = some ch2 ∧ ch2.ChannelId = ""))
    (hsend : srv.Send Status.INTERNAL_SERVER_ERROR s2 = (r, s3)) :
    Handle pb bh srv (k + 1 + m) s0 =
      { result := some r, state := s3,
        trace := pre ++
          [Event.Recv (Except.ok msg), Event.Process msg (Except.ok msg2),
           Event.Send Status.INTERNAL_SERVER_ERROR r] } :=
  Handle_after pb bh srv k m s0 s s3 pre _ r hrun
    (HandleBody_bad_result pb bh srv s s1 s2 s3 msg msg2 ch r hrecv hvalid htype hproc
      ((validChannelHeader_eq_none_iff _).mpr hbad) hsend)

/-- C5 on the sample world: a CONFIG_UPDATE that the processor turns into an
envelope with an empty channel id is answered INTERNAL_SERVER_ERROR. -/
theorem C5_processor_bad_output_internal_error_witness :
    Handle Sample.pb Sample.bh Sample.srv (0 + 1 + 0)
        (Sample.fresh [Sample.env [2, 1] [5, 0]]) =
      { result := some none,
        state := { inbox := [], outbox := [Status.INTERNAL_SERVER_ERROR], queue := [],
                   sendBroken := false, halted := false },
        trace := [] ++
          [Event.Recv (Except.ok (Sample.env [2, 1] [5, 0])),
           Event.Process (Sample.env [2, 1] [5, 0]) (Except.ok (Sample.env [5, 0] [])),
           Event.Send Status.INTERNAL_SERVER_ERROR none] } :=
  C5_processor_bad_output_internal_error Sample.pb Sample.bh Sample.srv 0 0
    (Sample.fresh [Sample.env [2, 1] [5, 0]]) (Sample.fresh [Sample.env [2, 1] [5, 0]])
    (Sample.fresh []) (Sample.fresh [])
    { inbox := [], outbox := [Status.INTERNAL_SERVER_ERROR], queue := [],
      sendBroken := false, halted := false }
    [] (Sample.env [2, 1] [5, 0]) (Sample.env [5, 0] [])
    { Type_ := 2, ChannelId := "testchain", Extension := [] } none
    (by decide) (by decide) (by decide) (by decide) (by decide)
    (Or.inr (Or.inr ⟨_, _, rfl, rfl, rfl⟩)) (by decide)

/-- C6: whenever a pass reaches the ordering sink, that is, it reaches the
lookup with the envelope `msg` in hand, the registry finds a support and the
filter chain of that support accepts `msg`, and Enqueue returns false, the
handler makes exactly one further call, the Send of SERVICE_UNAVAILABLE, and
returns what that Send returned; no SUCCESS is sent in that pass. -/
theorem C6_sink_refusal_service_unavailable {σ : Type} (pb : Proto) (bh : handlerImpl σ)
    (srv : AtomicBroadcast_BroadcastServer σ) (k m : Nat) (s0 s s1 s2 s3 s4 s5 : σ)
    (pre t : List Event) (msg : Envelope) (ch : ChannelHeader) (support : Support)
    (r : Option GoError)
    (hrun : Handle pb bh srv k s0 = { result := none, state := s, trace := pre })
    (hin : intake pb bh srv s = Checked.proceed msg ch s1 t)
    (hget : bh.sm.GetChain ch.ChannelId s1 = (some support, s2))
    (hfilter : bh.sm.Filters_Apply support msg s2 = (none, s3))
    (henq : bh.sm.Enqueue support msg s3 = (false, s4))
    (hsend : srv.Send Status.SERVICE_UNAVAILABLE s4 = (r, s5)) :
    Handle pb bh srv (k + 1 + m) s0 =
        { result := some r, state := s5,
          trace := pre ++
            (t ++ [Event.GetChain ch.ChannelId (some support), Event.Apply support msg none,
                   Event.Enqueue support msg false,
                   Event.Send Status.SERVICE_UNAVAILABLE r]) }
      ∧ (t = [Event.Recv (Except.ok msg)]
          ∨ ∃ msg0, t = [Event.Recv (Except.ok msg0), Event.Process msg0 (Except.ok msg)]) := by
  refine ⟨Handle_after pb bh srv k m s0 s s5 pre _ r hrun ?_, ?_⟩
  · rw [HandleBody_of_proceed pb bh srv s s1 msg ch t hin,
      route_refused bh srv msg ch s1 s2 s3 s4 s5 t support r hget hfilter henq hsend]
  · obtain ⟨msg0, ch0, _, _, h | h⟩ := (intake_proceed_iff pb bh srv s s1 msg ch t).mp hin
    · exact Or.inl (by rw [h.2.2.2.2, h.2.1])
    · exact Or.inr ⟨msg0, h.2.2.2⟩

/-- C6 on the sample world: a valid envelope on the known channel passes the
filter, the backend is shutting down, and the answer is SERVICE_UNAVAILABLE. -/
theorem C6_sink_refusal_service_unavailable_witness :
    Handle Sample.pb Sample.bh Sample.srv (0 + 1 + 0) Sample.shuttingDown =
        { result := some none,
          state := { inbox := [], outbox := [Status.SERVICE_UNAVAILABLE], queue := [],
                     sendBroken := false, halted := true },
          trace := [] ++
            ([Event.Recv (Except.ok (Sample.env [5, 1] []))]
              ++ [Event.GetChain "testchain" (some 7),
                  Event.Apply 7 (Sample.env [5, 1] []) none,
                  Event.Enqueue 7 (Sample.env [5, 1] []) false,
                  Event.Send Status.SERVICE_UNAVAILABLE none]) }
      ∧ ([Event.Recv (Except.ok (Sample.env [5, 1] []))]
            = [Event.Recv (Except.ok (Sample.env [5, 1] []))]
          ∨ ∃ msg0, [Event.Recv (Except.ok (Sample.env [5, 1] []))]
              = [Event.Recv (Except.ok msg0),
                 Event.Process msg0 (Except.ok (Sample.env [5, 1] []))]) :=
  C6_sink_refusal_service_unavailable Sample.pb Sample.bh Sample.srv 0 0
    Sample.shuttingDown Sample.shuttingDown
    { Sample.fresh [] with halted := true } { Sample.fresh [] with halted := true }
    { Sample.fresh [] with halted := true } { Sample.fresh [] with halted := true }
    { inbox := [], outbox := [Status.SERVICE_UNAVAILABLE], queue := [],
      sendBroken := false, halted := true }
    [] _ (Sample.env [5, 1] []) { Type_ := 5, ChannelId := "testchain", Extension := [] }
    7 none
    (by decide) (by decide) (by decide) (by decide) (by decide) (by decide)

/-- C7: whenever a pass reaches the lookup with the envelope `msg` in hand, the
registry finds a support, and the filter chain of that support rejects `msg`
(Apply returns an error), the handler makes exactly one further call, the Send
of BAD_REQUEST, and returns what that Send returned, without invoking Enqueue.
Hence, in every run, every Enqueue comes right after an Apply on the same
support and the same envelope that returned nil. -/
theorem C7_filter_rejection_bad_request {σ : Type} (pb : Proto) (bh : handlerImpl σ)
    (srv : AtomicBroadcast_BroadcastServer σ) (k m : Nat) (s0 s s1 s2 s3 s4 : σ)
    (pre t : List Event) (msg : Envelope) (ch : ChannelHeader) (support : Support)
    (ferr : GoError) (r : Option GoError)
    (hrun : Handle pb bh srv k s0 = { result := none, state := s, trace := pre })
    (hin : intake pb bh srv s = Checked.proceed msg ch s1 t)
    (hget : bh.sm.GetChain ch.ChannelId s1 = (some support, s2))
    (hfilter : bh.sm.Filters_Apply support msg s2 = (some ferr, s3))
    (hsend : srv.Send Status.BAD_REQUEST s3 = (r, s4)) :
    Handle pb bh srv (k + 1 + m) s0 =
        { result := some r, state := s4,
          trace := pre ++
            (t ++ [Event.GetChain ch.ChannelId (some support),
                   Event.Apply support msg (some ferr),
                   Event.Send Status.BAD_REQUEST r]) }
      ∧ (t = [Event.Recv (Except.ok msg)]
          ∨ ∃ msg0, t = [Event.Recv (Except.ok msg0), Event.Process msg0 (Except.ok msg)])
      ∧ ∀ (n : Nat) (w : σ) (before after : List Event) (support1 : Support)
          (env : Envelope) (ok : Bool),
          (Handle pb bh srv n w).trace = before ++ Event.Enqueue support1 env ok :: after →
            ∃ before1, before = before1 ++ [Event.Apply support1 env none] := by
  refine ⟨Handle_after pb bh srv k m s0 s s4 pre _ r hrun ?_, ?_,
    fun n w => Handle_guarded pb bh srv n w⟩
  · rw [HandleBody_of_proceed pb bh srv s s1 msg ch t hin,
      route_rejected bh srv msg ch s1 s2 s3 s4 t support ferr r hget hfilter hsend]
  · obtain ⟨msg0, ch0, _, _, h | h⟩ := (intake_proceed_iff pb bh srv s s1 msg ch t).mp hin
    · exact Or.inl (by rw [h.2.2.2.2, h.2.1])
    · exact Or.inr ⟨msg0, h.2.2.2⟩

/-- C7 on the sample world: a valid envelope on the known channel whose payload
is too large for the filter is answered BAD_REQUEST and is not enqueued. -/
theorem C7_filter_rejection_bad_request_witness :
    Handle Sample.pb Sample.bh Sample.srv (0 + 1 + 0)
        (Sample.fresh [Sample.env [5, 1, 0, 0, 0] []]) =
        { result := some none,
          state := { inbox := [], outbox := [Status.BAD_REQUEST], queue := [],
                     sendBroken := false, halted := false },
          trace := [] ++
            ([Event.Recv (Except.ok (Sample.env [5, 1, 0, 0, 0] []))]
              ++ [Event.GetChain "testchain" (some 7),
                  Event.Apply 7 (Sample.env [5, 1, 0, 0, 0] [])
                    (some (GoError.other "message too large")),
                  Event.Send Status.BAD_REQUEST none]) }
      ∧ ([Event.Recv (Except.ok (Sample.env [5, 1, 0, 0, 0] []))]
            = [Event.Recv (Except.ok (Sample.env [5, 1, 0, 0, 0] []))]
          ∨ ∃ msg0, [Event.Recv (Except.ok (Sample.env [5, 1, 0, 0, 0] []))]
              = [Event.Recv (Except.ok msg0),
                 Event.Process msg0 (Except.ok (Sample.env [5, 1, 0, 0, 0] []))])
      ∧ ∀ (n : Nat) (w : Sample.World) (before after : List Event) (support1 : Support)
          (env : Envelope) (ok : Bool),
          (Handle Sample.pb Sample.bh Sample.srv n w).trace
              = before ++ Event.Enqueue support1 env ok :: after →
            ∃ before1, before = before1 ++ [Event.Apply support1 env none] :=
  C7_filter_rejection_bad_request Sample.pb Sample.bh Sample.srv 0 0
    (Sample.fresh [Sample.env [5, 1, 0, 0, 0] []])
    (Sample.fresh [Sample.env [5, 1, 0, 0, 0] []])
    (Sample.fresh []) (Sample.fresh []) (Sample.fresh [])
    { inbox := [], outbox := [Status.BAD_REQUEST], queue := [], sendBroken := false,
      halted := false }
    [] _ (Sample.env [5, 1, 0, 0, 0] [])
    { Type_ := 5, ChannelId := "testchain", Extension := [] } 7
    (GoError.other "message too large") none
    (by decide) (by decide) (by decide) (by decide) (by decide)

/-- C8: in every run of `Handle`, however many passes it has made, the statuses
sent are SUCCESS some number of times followed by at most one status other than
SUCCESS; a Send of a status other than SUCCESS is the last call of the run and
`Handle` has returned with the result of that Send, so nothing is received,
no collaborator is invoked and nothing is sent after it; and after a Send of
SUCCESS that returned nil the next call is a Recv: it is in the trace, or the
run has not returned and one more pass begins with it. -/
theorem C8_non_success_status_is_terminal {σ : Type} (pb : Proto) (bh : handlerImpl σ)
    (srv : AtomicBroadcast_BroadcastServer σ) (fuel : Nat) (s : σ) :
    (∃ n tail, sent (Handle pb bh srv fuel s).trace
          = List.replicate n Status.SUCCESS ++ tail
        ∧ tail.length ≤ 1 ∧ Status.SUCCESS ∉ tail)
      ∧ (∀ (before after : List Event) (st : Status) (r : Option GoError),
          (Handle pb bh srv fuel s).trace = before ++ Event.Send st r :: after →
          st ≠ Status.SUCCESS →
            after = [] ∧ (Handle pb bh srv fuel s).result = some r)
      ∧ (∀ (before after : List Event),
          (Handle pb bh srv fuel s).trace
              = before ++ Event.Send Status.SUCCESS none :: after →
            (after = [] ∧ (Handle pb bh srv fuel s).result = none)
              ∨ ∃ rv rest, after = Event.Recv rv :: rest)
      ∧ ((Handle pb bh srv fuel s).result = none →
          ∃ rv rest, (Handle pb bh srv (fuel + 1) s).trace
            = (Handle pb bh srv fuel s).trace ++ Event.Recv rv :: rest) :=
  ⟨Handle_sent pb bh srv fuel s,
   fun before after st r h hst => Handle_terminal pb bh srv fuel s before after st r h hst,
   fun before after h => Handle_success_continues pb bh srv fuel s before after h,
   fun h => Handle_running_recv pb bh srv fuel s h⟩

/-- C10: whenever Recv reports an error, the run ends with that Recv: no
response is sent and no collaborator is invoked after it, and `Handle` returns
nil when the error is `io.EOF` and returns exactly that error otherwise. -/
theorem C10_recv_error_ends_run {σ : Type} (pb : Proto) (bh : handlerImpl σ)
    (srv : AtomicBroadcast_BroadcastServer σ) (k m : Nat) (s0 s s1 : σ)
    (pre : List Event) (err : GoError)
    (hrun : Handle pb bh srv k s0 = { result := none, state := s, trace := pre })
    (hrecv : srv.Recv s = (Except.error err, s1)) :
    Handle pb bh srv (k + 1 + m) s0 =
        { result := some (if err = GoError.EOF then none else some err), state := s1,
          trace := pre ++ [Event.Recv (Except.error err)] }
      ∧ (err = GoError.EOF → (Handle pb bh srv (k + 1 + m) s0).result = some none)
      ∧ (err ≠ GoError.EOF → (Handle pb bh srv (k + 1 + m) s0).result = some (some err)) := by
  have h := Handle_after pb bh srv k m s0 s s1 pre _ _ hrun
    (HandleBody_recv_error pb bh srv s s1 err hrecv)
  refine ⟨h, fun he => ?_, fun he => ?_⟩
  · rw [h, if_pos he]
  · rw [h, if_neg he]

/-- C10 on the sample world: after one accepted envelope the connection is
reset, and the handler returns that error without sending anything more. -/
theorem C10_recv_error_ends_run_witness :
    Handle Sample.pb Sample.bh Sample.srv (1 + 1 + 0) Sample.resetAfterOne =
        { result := some (if GoError.other "connection reset" = GoError.EOF then none
            else some (GoError.other "connection reset")),
          state := { inbox := [], outbox := [Status.SUCCESS],
                     queue := [Sample.env [5, 1] []], sendBroken := false, halted := false },
          trace :=
            [Event.Recv (Except.ok (Sample.env [5, 1] [])),
             Event.GetChain "testchain" (some 7),
             Event.Apply 7 (Sample.env [5, 1] []) none,
             Event.Enqueue 7 (Sample.env [5, 1] []) true,
             Event.Send Status.SUCCESS none]
            ++ [Event.Recv (Except.error (GoError.other "connection reset"))] }
      ∧ (GoError.other "connection reset" = GoError.EOF →
          (Handle Sample.pb Sample.bh Sample.srv (1 + 1 + 0) Sample.resetAfterOne).result
            = some none)
      ∧ (GoError.other "connection reset" ≠ GoError.EOF →
          (Handle Sample.pb Sample.bh Sample.srv (1 + 1 + 0) Sample.resetAfterOne).result
            = some (some (GoError.other "connection reset"))) :=
  C10_recv_error_ends_run Sample.pb Sample.bh Sample.srv 1 0 Sample.resetAfterOne
    { inbox := [Except.error (GoError.other "connection reset")],
      outbox := [Status.SUCCESS], queue := [Sample.env [5, 1] []], sendBroken := false,
      halted := false }
    { inbox := [], outbox := [Status.SUCCESS], queue := [Sample.env [5, 1] []],
      sendBroken := false, halted := false }
    _ (GoError.other "connection reset") (by decide) (by decide)

/-! ## Further facts about runs -/

/-- After a Send that is not a SUCCESS that returned nil the run is over: the
Send is its last call and `Handle` has returned the result of the Send. -/
theorem Handle_send_final {σ : Type} (pb : Proto) (bh : handlerImpl σ)
    (srv : AtomicBroadcast_BroadcastServer σ) (fuel : Nat) (s : σ)
    (before after : List Event) (st : Status) (r : Option GoError)
    (h : (Handle pb bh srv fuel s).trace = before ++ Event.Send st r :: after)
    (hc : ¬(st = Status.SUCCESS ∧ r = none)) :
    after = [] ∧ (Handle pb bh srv fuel s).result = some r := by
  induction fuel generalizing s before with
  | zero => simp [Handle] at h
  | succ k ih =>
    cases hf : (HandleBody pb bh srv s).flow with
    | ret err =>
      rw [Handle_ret pb bh srv k s err hf] at h ⊢
      obtain ⟨h1, h2⟩ := HandleBody_send pb bh srv s before after st r h
      rw [if_neg hc, hf] at h2
      exact ⟨h1, by rw [Flow.ret.inj h2]⟩
    | next =>
      rw [Handle_succ_next pb bh srv k s hf] at h ⊢
      rcases append_eq_split _ _ before after _ h with ⟨c, h1, _⟩ | ⟨c, _, h2⟩
      · obtain ⟨_, h3⟩ := HandleBody_send pb bh srv s before c st r h1
        rw [if_neg hc, hf] at h3
        cases h3
      · exact ih _ c h2

/-- The calls of a run of one pass are the calls of the pass. -/
theorem Handle_one_trace {σ : Type} (pb : Proto) (bh : handlerImpl σ)
    (srv : AtomicBroadcast_BroadcastServer σ) (s : σ) :
    (Handle pb bh srv 1 s).trace = (HandleBody pb bh srv s).trace := by
  cases hf : (HandleBody pb bh srv s).flow with
  | ret err => rw [Handle_ret pb bh srv 0 s err hf]
  | next => rw [Handle_succ_next pb bh srv 0 s hf]; simp [Handle]

/-- The calls of a run of `k` passes that did not return and one more are the
calls of the `k` passes and the calls of the next pass. -/
theorem Handle_succ_trace {σ : Type} (pb : Proto) (bh : handlerImpl σ)
    (srv : AtomicBroadcast_BroadcastServer σ) (k : Nat) (s0 s : σ) (pre : List Event)
    (hrun : Handle pb bh srv k s0 = { result := none, state := s, trace := pre }) :
    (Handle pb bh srv (k + 1) s0).trace = pre ++ (HandleBody pb bh srv s).trace := by
  rw [Handle_add pb bh srv k 1 s0 (by rw [hrun]), hrun]
  simp only []
  rw [Handle_one_trace]

/-- C11: whenever a Send of any status, SUCCESS included, returns an error, that
Send is the last call of the run, so no Recv, collaborator call or Send follows
it, and `Handle` has returned that error. -/
theorem C11_send_failure_is_fatal {σ : Type} (pb : Proto) (bh : handlerImpl σ)
    (srv : AtomicBroadcast_BroadcastServer σ) (fuel : Nat) (s : σ)
    (before after : List Event) (st : Status) (err : GoError)
    (h : (Handle pb bh srv fuel s).trace = before ++ Event.Send st (some err) :: after) :
    after = [] ∧ (Handle pb bh srv fuel s).result = some (some err) :=
  Handle_send_final pb bh srv fuel s before after st (some err) h (by simp)

/-- C11 on the sample world: the Send of SUCCESS fails, one more envelope is
waiting, and with fuel for three passes the handler has returned the error of
the Send with that Send as its last call. -/
theorem C11_send_failure_is_fatal_witness :
    ([] : List Event) = []
      ∧ (Handle Sample.pb Sample.bh Sample.srv 3 Sample.brokenPipeTwo).result
          = some (some (GoError.other "broken pipe")) :=
  C11_send_failure_is_fatal Sample.pb Sample.bh Sample.srv 3 Sample.brokenPipeTwo
    [Event.Recv (Except.ok (Sample.env [5, 1] [])), Event.GetChain "testchain" (some 7),
     Event.Apply 7 (Sample.env [5, 1] []) none, Event.Enqueue 7 (Sample.env [5, 1] []) true]
    [] Status.SUCCESS (GoError.other "broken pipe") (by decide)

/-- The four ways through lines 106 to 136: the lookup is made with the channel
id of `ch`, and Apply and Enqueue, when they are called, are called on the
support found and on the envelope `msg`. -/
theorem route_cases {σ : Type} (bh : handlerImpl σ)
    (srv : AtomicBroadcast_BroadcastServer σ) (msg : Envelope) (ch : ChannelHeader)
    (s : σ) (t : List Event) :
    ∃ (g : Option Support) (tail : List Event),
      (route bh srv msg ch s t).trace = t ++ (Event.GetChain ch.ChannelId g :: tail)
      ∧ ((g = none ∧ ∃ r, tail = [Event.Send Status.NOT_FOUND r])
        ∨ ∃ support, g = some support
            ∧ ((∃ ferr r, tail = [Event.Apply support msg (some ferr),
                                  Event.Send Status.BAD_REQUEST r])
              ∨ (∃ r, tail = [Event.Apply support msg none,
                              Event.Enqueue support msg false,
                              Event.Send Status.SERVICE_UNAVAILABLE r])
              ∨ (∃ r, tail = [Event.Apply support msg none,
                              Event.Enqueue support msg true,
                              Event.Send Status.SUCCESS r]))) := by
  cases hg : (bh.sm.GetChain ch.ChannelId s).1 with
  | none =>
    exact ⟨none, _, by simp [route, reply, hg]; rfl, Or.inl ⟨rfl, _, rfl⟩⟩
  | some support =>
    cases hf : (bh.sm.Filters_Apply support msg (bh.sm.GetChain ch.ChannelId s).2).1 with
    | some ferr =>
      exact ⟨some support, _, by simp [route, reply, hg, hf]; rfl,
        Or.inr ⟨support, rfl, Or.inl ⟨ferr, _, rfl⟩⟩⟩
    | none =>
      cases hq : (bh.sm.Enqueue support msg (bh.sm.Filters_Apply support msg
          (bh.sm.GetChain ch.ChannelId s).2).2).1 with
      | false =>
        exact ⟨some support, _, by simp [route, reply, hg, hf, hq]; rfl,
          Or.inr ⟨support, rfl, Or.inr (Or.inl ⟨_, rfl⟩)⟩⟩
      | true =>
        refine ⟨some support,
          [Event.Apply support msg none, Event.Enqueue support msg true,
           Event.Send Status.SUCCESS (srv.Send Status.SUCCESS (bh.sm.Enqueue support msg
            (bh.sm.Filters_Apply support msg (bh.sm.GetChain ch.ChannelId s).2).2).2).1],
          ?_, Or.inr ⟨support, rfl, Or.inr (Or.inr ⟨_, rfl⟩)⟩⟩
        cases hs : (srv.Send Status.SUCCESS (bh.sm.Enqueue support msg
            (bh.sm.Filters_Apply support msg (bh.sm.GetChain ch.ChannelId s).2).2).2).1 <;>
          simp [route, hg, hf, hq, hs]

/-- C12: whenever the handler receives an envelope with a valid header of type
CONFIG_UPDATE on which Process succeeds with an envelope `msg2` that has a valid
channel header `ch2`, the rest of the pass uses `msg2` and not the received
envelope: the call after the Process is GetChain with the channel id of `ch2`,
and Apply and Enqueue, when they are called, are called on `msg2`. -/
theorem C12_transformed_envelope_replaces_original {σ : Type} (pb : Proto)
    (bh : handlerImpl σ) (srv : AtomicBroadcast_BroadcastServer σ) (k : Nat)
    (s0 s s1 s2 : σ) (pre : List Event) (msg msg2 : Envelope) (ch ch2 : ChannelHeader)
    (hrun : Handle pb bh srv k s0 = { result := none, state := s, trace := pre })
    (hrecv : srv.Recv s = (Except.ok msg, s1))
    (hvalid : validChannelHeader
      (pb.Unmarshal msg.Payload { Header := none, Data := [] }).2 = some ch)
    (htype : ch.Type_ = pb.HeaderType_CONFIG_UPDATE)
    (hproc : bh.sm.Process msg s1 = (Except.ok msg2, s2))
    (hvalid2 : validChannelHeader (pb.Unmarshal msg2.Payload
      (pb.Unmarshal msg.Payload { Header := none, Data := [] }).2).2 = some ch2) :
    ∃ (g : Option Support) (tail : List Event),
      (Handle pb bh srv (k + 1) s0).trace =
        pre ++ ([Event.Recv (Except.ok msg), Event.Process msg (Except.ok msg2)]
          ++ (Event.GetChain ch2.ChannelId g :: tail))
      ∧ ((g = none ∧ ∃ r, tail = [Event.Send Status.NOT_FOUND r])
        ∨ ∃ support, g = some support
            ∧ ((∃ ferr r, tail = [Event.Apply support msg2 (some ferr),
                                  Event.Send Status.BAD_REQUEST r])
              ∨ (∃ r, tail = [Event.Apply support msg2 none,
                              Event.Enqueue support msg2 false,
                              Event.Send Status.SERVICE_UNAVAILABLE r])
              ∨ (∃ r, tail = [Event.Apply support msg2 none,
                              Event.Enqueue support msg2 true,
                              Event.Send Status.SUCCESS r]))) := by
  obtain ⟨g, tail, h1, h2⟩ := route_cases bh srv msg2 ch2 s2
    [Event.Recv (Except.ok msg), Event.Process msg (Except.ok msg2)]
  refine ⟨g, tail, ?_, h2⟩
  rw [Handle_succ_trace pb bh srv k s0 s pre hrun,
    HandleBody_of_proceed pb bh srv s s2 msg2 ch2 _
      (intake_config_update pb bh srv s s1 s2 msg msg2 ch ch2 hrecv hvalid htype hproc
        hvalid2), h1]

/-- C12 on the sample world: a CONFIG_UPDATE addressed to the unknown channel
`nochain` that the processor turns into an envelope on `testchain` is looked up
under `testchain`, and the envelope filtered and enqueued is the processor's. -/
theorem C12_transformed_envelope_replaces_original_witness :
    ∃ (g : Option Support) (tail : List Event),
      (Handle Sample.pb Sample.bh Sample.srv (0 + 1)
          (Sample.fresh [Sample.env [2, 2] [5, 1]])).trace =
        [] ++ ([Event.Recv (Except.ok (Sample.env [2, 2] [5, 1])),
                Event.Process (Sample.env [2, 2] [5, 1]) (Except.ok (Sample.env [5, 1] []))]
          ++ (Event.GetChain
                ({ Type_ := 5, ChannelId := "testchain", Extension := [] } :
                  ChannelHeader).ChannelId g :: tail))
      ∧ ((g = none ∧ ∃ r, tail = [Event.Send Status.NOT_FOUND r])
        ∨ ∃ support, g = some support
            ∧ ((∃ ferr r, tail = [Event.Apply support (Sample.env [5, 1] []) (some ferr),
                                  Event.Send Status.BAD_REQUEST r])
              ∨ (∃ r, tail = [Event.Apply support (Sample.env [5, 1] []) none,
                              Event.Enqueue support (Sample.env [5, 1] []) false,
                              Event.Send Status.SERVICE_UNAVAILABLE r])
              ∨ (∃ r, tail = [Event.Apply support (Sample.env [5, 1] []) none,
                              Event.Enqueue support (Sample.env [5, 1] []) true,
                              Event.Send Status.SUCCESS r]))) :=
  C12_transformed_envelope_replaces_original Sample.pb Sample.bh Sample.srv 0
    (Sample.fresh [Sample.env [2, 2] [5, 1]]) (Sample.fresh [Sample.env [2, 2] [5, 1]])
    (Sample.fresh []) (Sample.fresh []) [] (Sample.env [2, 2] [5, 1]) (Sample.env [5, 1] [])
    { Type_ := 2, ChannelId := "nochain", Extension := [] }
    { Type_ := 5, ChannelId := "testchain", Extension := [] }
    (by decide) (by decide) (by decide) (by decide) (by decide) (by decide)

theorem processed_append (a b : List Event) :
    processed (a ++ b) = processed a ++ processed b := by
  induction a with
  | nil => rfl
  | cons x a ih => cases x <;> simp [processed, ih]

/-- Lines 106 to 136 do not call Process. -/
theorem route_processed {σ : Type} (bh : handlerImpl σ)
    (srv : AtomicBroadcast_BroadcastServer σ) (msg : Envelope) (ch : ChannelHeader)
    (s : σ) (t : List Event) :
    processed (route bh srv msg ch s t).trace = processed t := by
  obtain ⟨g, tail, h1, h2⟩ := route_cases bh srv msg ch s t
  rw [h1, processed_append]
  rcases h2 with ⟨_, r, rfl⟩ | ⟨support, _, ⟨ferr, r, rfl⟩ | ⟨r, rfl⟩ | ⟨r, rfl⟩⟩ <;>
    simp [processed]

/-- The envelopes handed to Process in a pass that received the envelope `msg`:
`msg` itself, once, when its header is valid and of type CONFIG_UPDATE, and none
otherwise. -/
theorem HandleBody_processed {σ : Type} (pb : Proto) (bh : handlerImpl σ)
    (srv : AtomicBroadcast_BroadcastServer σ) (s s1 : σ) (msg : Envelope)
    (hrecv : srv.Recv s = (Except.ok msg, s1)) :
    processed (HandleBody pb bh srv s).trace =
      (match validChannelHeader
          (pb.Unmarshal msg.Payload { Header := none, Data := [] }).2 with
        | some ch => if ch.Type_ = pb.HeaderType_CONFIG_UPDATE then [msg] else []
        | none => []) := by
  cases hv : validChannelHeader
      (pb.Unmarshal msg.Payload { Header := none, Data := [] }).2 with
  | none =>
    rw [HandleBody_malformed pb bh srv s s1 _ msg _ hrecv hv rfl]
    simp [processed]
  | some ch =>
    by_cases ht : ch.Type_ = pb.HeaderType_CONFIG_UPDATE
    · simp only [ht, if_true]
      cases hp : (bh.sm.Process msg s1).1 with
      | error perr =>
        rw [HandleBody_process_failed pb bh srv s s1 _ _ msg ch perr _ hrecv hv ht
          (Prod.ext hp rfl) rfl]
        simp [processed]
      | ok msg2 =>
        cases hv2 : validChannelHeader (pb.Unmarshal msg2.Payload
            (pb.Unmarshal msg.Payload { Header := none, Data := [] }).2).2 with
        | none =>
          rw [HandleBody_bad_result pb bh srv s s1 _ _ msg msg2 ch _ hrecv hv ht
            (Prod.ext hp rfl) hv2 rfl]
          simp [processed]
        | some ch2 =>
          rw [HandleBody_of_proceed pb bh srv s _ msg2 ch2 _
            (intake_config_update pb bh srv s s1 _ msg msg2 ch ch2 hrecv hv ht
              (Prod.ext hp rfl) hv2), route_processed]
          simp [processed]
    · simp only [ht, if_false]
      rw [HandleBody_of_proceed pb bh srv s _ msg ch _
        (intake_plain pb bh srv s s1 msg ch hrecv hv ht), route_processed]
      simp [processed]

/-- C13: in the pass that receives the envelope `msg`, Process is invoked if
and only if the header of `msg` is valid and of type CONFIG_UPDATE, it is
invoked at most once, and on `msg` only. In particular, when the processor
gives an envelope whose type is again CONFIG_UPDATE, that envelope is not
processed: the call after the Process is the GetChain for its channel id, and no
Process follows. -/
theorem C13_process_once_iff_config_update {σ : Type} (pb : Proto) (bh : handlerImpl σ)
    (srv : AtomicBroadcast_BroadcastServer σ) (k : Nat) (s0 s s1 : σ)
    (pre : List Event) (msg : Envelope)
    (hrun : Handle pb bh srv k s0 = { result := none, state := s, trace := pre })
    (hrecv : srv.Recv s = (Except.ok msg, s1)) :
    ∃ pass, (Handle pb bh srv (k + 1) s0).trace = pre ++ pass
      ∧ (processed pass ≠ [] ↔
          ∃ ch, validChannelHeader
              (pb.Unmarshal msg.Payload { Header := none, Data := [] }).2 = some ch
            ∧ ch.Type_ = pb.HeaderType_CONFIG_UPDATE)
      ∧ (processed pass).length ≤ 1
      ∧ (∀ env ∈ processed pass, env = msg)
      ∧ (∀ (ch ch2 : ChannelHeader) (msg2 : Envelope) (s2 : σ),
          validChannelHeader
            (pb.Unmarshal msg.Payload { Header := none, Data := [] }).2 = some ch →
          ch.Type_ = pb.HeaderType_CONFIG_UPDATE →
          bh.sm.Process msg s1 = (Except.ok msg2, s2) →
          validChannelHeader (pb.Unmarshal msg2.Payload
            (pb.Unmarshal msg.Payload { Header := none, Data := [] }).2).2 = some ch2 →
          ch2.Type_ = pb.HeaderType_CONFIG_UPDATE →
          ∃ g tail, pass = [Event.Recv (Except.ok msg), Event.Process msg (Except.ok msg2),
                            Event.GetChain ch2.ChannelId g] ++ tail
            ∧ processed tail = []) := by
  have hp := HandleBody_processed pb bh srv s s1 msg hrecv
  refine ⟨(HandleBody pb bh srv s).trace, Handle_succ_trace pb bh srv k s0 s pre hrun,
    ?_, ?_, ?_, ?_⟩
  · rw [hp]
    cases hv : validChannelHeader
        (pb.Unmarshal msg.Payload { Header := none, Data := [] }).2 with
    | none => simp
    | some ch =>
      by_cases ht : ch.Type_ = pb.HeaderType_CONFIG_UPDATE <;> simp [ht]
  · rw [hp]
    cases hv : validChannelHeader
        (pb.Unmarshal msg.Payload { Header := none, Data := [] }).2 with
    | none => simp
    | some ch =>
      by_cases ht : ch.Type_ = pb.HeaderType_CONFIG_UPDATE <;> simp [ht]
  · rw [hp]
    cases hv : validChannelHeader
        (pb.Unmarshal msg.Payload { Header := none, Data := [] }).2 with
    | none => simp
    | some ch =>
      by_cases ht : ch.Type_ = pb.HeaderType_CONFIG_UPDATE <;> simp [ht]
  · intro ch ch2 msg2 s2 hv ht hproc hv2 _
    obtain ⟨g, tail, h1, h2⟩ := route_cases bh srv msg2 ch2 s2
      [Event.Recv (Except.ok msg), Event.Process msg (Except.ok msg2)]
    refine ⟨g, tail, ?_, ?_⟩
    · rw [HandleBody_of_proceed pb bh srv s s2 msg2 ch2 _
        (intake_config_update pb bh srv s s1 s2 msg msg2 ch ch2 hrecv hv ht hproc hv2), h1]
      simp
    · rcases h2 with ⟨_, r, rfl⟩ | ⟨support, _, ⟨ferr, r, rfl⟩ | ⟨r, rfl⟩ | ⟨r, rfl⟩⟩ <;>
        simp [processed]

/-- C13 on the sample world: a CONFIG_UPDATE that the processor turns into
another CONFIG_UPDATE is processed once. -/
theorem C13_process_once_iff_config_update_witness :
    ∃ pass, (Handle Sample.pb Sample.bh Sample.srv (0 + 1)
          (Sample.fresh [Sample.env [2, 1] [2, 1]])).trace = [] ++ pass
      ∧ (processed pass ≠ [] ↔
          ∃ ch, validChannelHeader
              (Sample.pb.Unmarshal (Sample.env [2, 1] [2, 1]).Payload
                { Header := none, Data := [] }).2 = some ch
            ∧ ch.Type_ = Sample.pb.HeaderType_CONFIG_UPDATE)
      ∧ (processed pass).length ≤ 1
      ∧ (∀ env ∈ processed pass, env = Sample.env [2, 1] [2, 1])
      ∧ (∀ (ch ch2 : ChannelHeader) (msg2 : Envelope) (s2 : Sample.World),
          validChannelHeader
            (Sample.pb.Unmarshal (Sample.env [2, 1] [2, 1]).Payload
              { Header := none, Data := [] }).2 = some ch →
          ch.Type_ = Sample.pb.HeaderType_CONFIG_UPDATE →
          Sample.bh.sm.Process (Sample.env [2, 1] [2, 1]) (Sample.fresh [])
            = (Except.ok msg2, s2) →
          validChannelHeader (Sample.pb.Unmarshal msg2.Payload
            (Sample.pb.Unmarshal (Sample.env [2, 1] [2, 1]).Payload
              { Header := none, Data := [] }).2).2 = some ch2 →
          ch2.Type_ = Sample.pb.HeaderType_CONFIG_UPDATE →
          ∃ g tail, pass = [Event.Recv (Except.ok (Sample.env [2, 1] [2, 1])),
                            Event.Process (Sample.env [2, 1] [2, 1]) (Except.ok msg2),
                            Event.GetChain ch2.ChannelId g] ++ tail
            ∧ processed tail = []) :=
  C13_process_once_iff_config_update Sample.pb Sample.bh Sample.srv 0
    (Sample.fresh [Sample.env [2, 1] [2, 1]]) (Sample.fresh [Sample.env [2, 1] [2, 1]])
    (Sample.fresh []) [] (Sample.env [2, 1] [2, 1]) (by decide) (by decide)

/-- C14: with the parser of the spec, a pure function of the raw bytes, the
check made on the output of the processor is the check of step 1: for all bytes
`b` and every value `prev` that the reused payload holds from the original
envelope, the re-check gives for `b` what the check of a freshly received
envelope gives. Hence, in the handler, a CONFIG_UPDATE whose processor output
has the payload `b` is answered INTERNAL_SERVER_ERROR exactly when step 1
rejects `b`, and goes to the lookup with the channel header step 1 finds in `b`
otherwise. -/
theorem C14_recheck_is_first_check (decode : Bytes → Option GoError × Payload)
    (configUpdate : Int) (b : Bytes) (prev : Payload) :
    validChannelHeader ((specProto decode configUpdate).Unmarshal b prev).2
        = validChannelHeader
            ((specProto decode configUpdate).Unmarshal b { Header := none, Data := [] }).2
      ∧ ∀ {σ : Type} (bh : handlerImpl σ) (srv : AtomicBroadcast_BroadcastServer σ)
          (s s1 s2 : σ) (msg msg2 : Envelope) (ch : ChannelHeader),
          srv.Recv s = (Except.ok msg, s1) →
          validChannelHeader ((specProto decode configUpdate).Unmarshal msg.Payload
            { Header := none, Data := [] }).2 = some ch →
          ch.Type_ = configUpdate →
          bh.sm.Process msg s1 = (Except.ok msg2, s2) →
          msg2.Payload = b →
          intake (specProto decode configUpdate) bh srv s =
            (match validChannelHeader ((specProto decode configUpdate).Unmarshal b
                { Header := none, Data := [] }).2 with
              | none => Checked.stop (reply srv Status.INTERNAL_SERVER_ERROR s2
                  [Event.Recv (Except.ok msg), Event.Process msg (Except.ok msg2)])
              | some ch2 => Checked.proceed msg2 ch2 s2
                  [Event.Recv (Except.ok msg), Event.Process msg (Except.ok msg2)]) := by
  refine ⟨rfl, ?_⟩
  intro σ bh srv s s1 s2 msg msg2 ch hrecv hvalid htype hproc hb
  subst hb
  have hv : validChannelHeader (decode msg.Payload).2 = some ch := hvalid
  cases hv2 : validChannelHeader (decode msg2.Payload).2 <;>
    simp [intake, specProto, hrecv, hv, htype, hproc, hv2]

/-- The equality of C14 rests on the parser not reading the value the message
held before the call: for a `Proto` whose `Unmarshal` keeps that value, the
re-check and the check of step 1 differ. -/
theorem recheck_depends_on_Unmarshal :
    ∃ (pb : Proto) (b : Bytes) (prev : Payload),
      validChannelHeader (pb.Unmarshal b prev).2
        ≠ validChannelHeader (pb.Unmarshal b { Header := none, Data := [] }).2 :=
  ⟨{ Unmarshal := fun _ prev => (none, prev), HeaderType_CONFIG_UPDATE := 2 }, [],
   (Sample.pb.Unmarshal [2, 1] { Header := none, Data := [] }).2, by decide⟩

theorem calls_append (a b : List Event) : calls (a ++ b) = calls a ++ calls b := by
  simp [calls]

/-- With collaborators whose results are functions of their arguments, the
statuses and the collaborator calls of lines 106 to 136 are the same in any two
worlds. -/
theorem route_pure {σ : Type} (bh : handlerImpl σ)
    (srv : AtomicBroadcast_BroadcastServer σ)
    (hG : ∀ chainID w w1, (bh.sm.GetChain chainID w).1 = (bh.sm.GetChain chainID w1).1)
    (hF : ∀ support env w w1,
      (bh.sm.Filters_Apply support env w).1 = (bh.sm.Filters_Apply support env w1).1)
    (hQ : ∀ support env w w1,
      (bh.sm.Enqueue support env w).1 = (bh.sm.Enqueue support env w1).1)
    (msg : Envelope) (ch : ChannelHeader) (s f : σ) (t t1 : List Event)
    (ht : sent t = sent t1) (hc : calls t = calls t1) :
    sent (route bh srv msg ch s t).trace = sent (route bh srv msg ch f t1).trace
      ∧ calls (route bh srv msg ch s t).trace = calls (route bh srv msg ch f t1).trace := by
  have hg := hG ch.ChannelId s f
  simp only [calls] at hc
  cases hgs : (bh.sm.GetChain ch.ChannelId s).1 with
  | none =>
    rw [hgs] at hg
    simp [route, reply, hgs, ← hg, sent_append, calls_append, ht, hc, sent, calls,
      Event.isCall]
  | some support =>
    rw [hgs] at hg
    have hf := hF support msg (bh.sm.GetChain ch.ChannelId s).2
      (bh.sm.GetChain ch.ChannelId f).2
    cases hfs : (bh.sm.Filters_Apply support msg (bh.sm.GetChain ch.ChannelId s).2).1 with
    | some ferr =>
      rw [hfs] at hf
      simp [route, reply, hgs, ← hg, hfs, ← hf, sent_append, calls_append, ht, hc, sent,
        calls, Event.isCall]
    | none =>
      rw [hfs] at hf
      have hq := hQ support msg
        (bh.sm.Filters_Apply support msg (bh.sm.GetChain ch.ChannelId s).2).2
        (bh.sm.Filters_Apply support msg (bh.sm.GetChain ch.ChannelId f).2).2
      cases hqs : (bh.sm.Enqueue support msg
          (bh.sm.Filters_Apply support msg (bh.sm.GetChain ch.ChannelId s).2).2).1 with
      | false =>
        rw [hqs] at hq
        simp [route, reply, hgs, ← hg, hfs, ← hf, hqs, ← hq, sent_append, calls_append, ht,
          hc, sent, calls, Event.isCall]
      | true =>
        rw [hqs] at hq
        cases hs1 : (srv.Send Status.SUCCESS (bh.sm.Enqueue support msg
            (bh.sm.Filters_Apply support msg (bh.sm.GetChain ch.ChannelId s).2).2).2).1 <;>
        cases hs2 : (srv.Send Status.SUCCESS (bh.sm.Enqueue support msg
            (bh.sm.Filters_Apply support msg (bh.sm.GetChain ch.ChannelId f).2).2).2).1 <;>
        simp [route, hgs, ← hg, hfs, ← hf, hqs, ← hq, hs1, hs2, sent_append, calls_append,
          ht, hc, sent, calls, Event.isCall]

/-- With collaborators whose results are functions of their arguments, two
passes that receive the same envelope send the same statuses and make the same
collaborator calls, whatever the worlds they start in. -/
theorem HandleBody_pure {σ : Type} (pb : Proto) (bh : handlerImpl σ)
    (srv : AtomicBroadcast_BroadcastServer σ)
    (hP : ∀ env w w1, (bh.sm.Process env w).1 = (bh.sm.Process env w1).1)
    (hG : ∀ chainID w w1, (bh.sm.GetChain chainID w).1 = (bh.sm.GetChain chainID w1).1)
    (hF : ∀ support env w w1,
      (bh.sm.Filters_Apply support env w).1 = (bh.sm.Filters_Apply support env w1).1)
    (hQ : ∀ support env w w1,
      (bh.sm.Enqueue support env w).1 = (bh.sm.Enqueue support env w1).1)
    (s s1 f f1 : σ) (e : Envelope)
    (hs : srv.Recv s = (Except.ok e, s1)) (hf : srv.Recv f = (Except.ok e, f1)) :
    sent (HandleBody pb bh srv s).trace = sent (HandleBody pb bh srv f).trace
      ∧ calls (HandleBody pb bh srv s).trace = calls (HandleBody pb bh srv f).trace := by
  cases hv : validChannelHeader
      (pb.Unmarshal e.Payload { Header := none, Data := [] }).2 with
  | none =>
    rw [HandleBody_malformed pb bh srv s s1 _ e _ hs hv rfl,
      HandleBody_malformed pb bh srv f f1 _ e _ hf hv rfl]
    simp [sent, calls, Event.isCall]
  | some ch =>
    by_cases ht : ch.Type_ = pb.HeaderType_CONFIG_UPDATE
    · have hp := hP e s1 f1
      cases hps : (bh.sm.Process e s1).1 with
      | error perr =>
        rw [hps] at hp
        rw [HandleBody_process_failed pb bh srv s s1 _ _ e ch perr _ hs hv ht
            (Prod.ext hps rfl) rfl,
          HandleBody_process_failed pb bh srv f f1 _ _ e ch perr _ hf hv ht
            (Prod.ext hp.symm rfl) rfl]
        simp [sent, calls, Event.isCall]
      | ok msg2 =>
        rw [hps] at hp
        cases hv2 : validChannelHeader (pb.Unmarshal msg2.Payload
            (pb.Unmarshal e.Payload { Header := none, Data := [] }).2).2 with
        | none =>
          rw [HandleBody_bad_result pb bh srv s s1 _ _ e msg2 ch _ hs hv ht
              (Prod.ext hps rfl) hv2 rfl,
            HandleBody_bad_result pb bh srv f f1 _ _ e msg2 ch _ hf hv ht
              (Prod.ext hp.symm rfl) hv2 rfl]
          simp [sent, calls, Event.isCall]
        | some ch2 =>
          rw [HandleBody_of_proceed pb bh srv s _ msg2 ch2 _
              (intake_config_update pb bh srv s s1 _ e msg2 ch ch2 hs hv ht
                (Prod.ext hps rfl) hv2),
            HandleBody_of_proceed pb bh srv f _ msg2 ch2 _
              (intake_config_update pb bh srv f f1 _ e msg2 ch ch2 hf hv ht
                (Prod.ext hp.symm rfl) hv2)]
          exact route_pure bh srv hG hF hQ msg2 ch2 _ _ _ _ rfl rfl
    · rw [HandleBody_of_proceed pb bh srv s _ e ch _
          (intake_plain pb bh srv s s1 e ch hs hv ht),
        HandleBody_of_proceed pb bh srv f _ e ch _
          (intake_plain pb bh srv f f1 e ch hf hv ht)]
      exact route_pure bh srv hG hF hQ e ch _ _ _ _ rfl rfl

/-- A run that has not returned has answered SUCCESS in every pass. -/
theorem Handle_running_sent {σ : Type} (pb : Proto) (bh : handlerImpl σ)
    (srv : AtomicBroadcast_BroadcastServer σ) (fuel : Nat) (s : σ)
    (h : (Handle pb bh srv fuel s).result = none) :
    sent (Handle pb bh srv fuel s).trace = List.replicate fuel Status.SUCCESS := by
  induction fuel generalizing s with
  | zero => rfl
  | succ k ih =>
    cases hf : (HandleBody pb bh srv s).flow with
    | ret err =>
      rw [Handle_ret pb bh srv k s err hf] at h
      simp at h
    | next =>
      rw [Handle_succ_next pb bh srv k s hf] at h ⊢
      rcases HandleBody_shape pb bh srv s with ⟨err, _, h2⟩ | ⟨msg, mid, st, r, h1, h2, _, h4⟩
      · rw [hf] at h2
        cases h2
      · by_cases hc : st = Status.SUCCESS ∧ r = none
        · simp only [sent_append, ih _ h, h1]
          simp [sent, sent_append, sent_of_calls mid h2, hc.1, List.replicate_succ]
        · rw [if_neg hc, hf] at h4
          cases h4

/-- C15: let the collaborators be functions of their arguments, let the handler
have answered SUCCESS to every one of `k` envelopes, and let the next Recv
deliver the envelope `e`; on a fresh connection, in any world `f`, let the first
Recv deliver `e` as well. Then the statuses sent and the collaborator calls made
in the pass for `e` are the same in the two runs. -/
theorem C15_no_state_across_requests {σ : Type} (pb : Proto) (bh : handlerImpl σ)
    (srv : AtomicBroadcast_BroadcastServer σ) (k : Nat) (s0 s s1 f f1 : σ)
    (pre : List Event) (e : Envelope)
    (hP : ∀ env w w1, (bh.sm.Process env w).1 = (bh.sm.Process env w1).1)
    (hG : ∀ chainID w w1, (bh.sm.GetChain chainID w).1 = (bh.sm.GetChain chainID w1).1)
    (hF : ∀ support env w w1,
      (bh.sm.Filters_Apply support env w).1 = (bh.sm.Filters_Apply support env w1).1)
    (hQ : ∀ support env w w1,
      (bh.sm.Enqueue support env w).1 = (bh.sm.Enqueue support env w1).1)
    (hrun : Handle pb bh srv k s0 = { result := none, state := s, trace := pre })
    (hrecv : srv.Recv s = (Except.ok e, s1))
    (hfresh : srv.Recv f = (Except.ok e, f1)) :
    sent pre = List.replicate k Status.SUCCESS
      ∧ ∃ pass first, (Handle pb bh srv (k + 1) s0).trace = pre ++ pass
          ∧ (Handle pb bh srv 1 f).trace = first
          ∧ sent pass = sent first ∧ calls pass = calls first := by
  refine ⟨?_, (HandleBody pb bh srv s).trace, (HandleBody pb bh srv f).trace,
    Handle_succ_trace pb bh srv k s0 s pre hrun, Handle_one_trace pb bh srv f,
    HandleBody_pure pb bh srv hP hG hF hQ s s1 f f1 e hrecv hfresh⟩
  have h := Handle_running_sent pb bh srv k s0 (by rw [hrun])
  rw [hrun] at h
  exact h

/-- C15 on the sample world with a sink that always accepts: an envelope too
large for the filter is answered BAD_REQUEST with the same collaborator calls
after one accepted envelope as on a fresh connection. -/
theorem C15_no_state_across_requests_witness :
    sent [Event.Recv (Except.ok (Sample.env [5, 1] [])), Event.GetChain "testchain" (some 7),
          Event.Apply 7 (Sample.env [5, 1] []) none,
          Event.Enqueue 7 (Sample.env [5, 1] []) true, Event.Send Status.SUCCESS none]
        = List.replicate 1 Status.SUCCESS
      ∧ ∃ pass first,
          (Handle Sample.pb Sample.bhPure Sample.srv (1 + 1)
            (Sample.fresh [Sample.env [5, 1] [], Sample.env [5, 1, 0, 0, 0] []])).trace =
              [Event.Recv (Except.ok (Sample.env [5, 1] [])),
               Event.GetChain "testchain" (some 7),
               Event.Apply 7 (Sample.env [5, 1] []) none,
               Event.Enqueue 7 (Sample.env [5, 1] []) true,
               Event.Send Status.SUCCESS none] ++ pass
          ∧ (Handle Sample.pb Sample.bhPure Sample.srv 1
              (Sample.fresh [Sample.env [5, 1, 0, 0, 0] []])).trace = first
          ∧ sent pass = sent first ∧ calls pass = calls first :=
  C15_no_state_across_requests Sample.pb Sample.bhPure Sample.srv 1
    (Sample.fresh [Sample.env [5, 1] [], Sample.env [5, 1, 0, 0, 0] []])
    { inbox := [Except.ok (Sample.env [5, 1, 0, 0, 0] [])], outbox := [Status.SUCCESS],
      queue := [Sample.env [5, 1] []], sendBroken := false, halted := false }
    { inbox := [], outbox := [Status.SUCCESS], queue := [Sample.env [5, 1] []],
      sendBroken := false, halted := false }
    (Sample.fresh [Sample.env [5, 1, 0, 0, 0] []]) (Sample.fresh [])
    _ (Sample.env [5, 1, 0, 0, 0] [])
    (fun env w w1 => by
      simp only [Sample.bhPure, Sample.smPure, Sample.sm]
      split <;> rfl)
    (fun chainID w w1 => by
      simp only [Sample.bhPure, Sample.smPure, Sample.sm]
      split <;> rfl)
    (fun support env w w1 => by
      simp only [Sample.bhPure, Sample.smPure, Sample.sm]
      split <;> rfl)
    (fun support env w w1 => rfl)
    (by decide) (by decide) (by decide)

/-! ## The block listener: what `getChainCodeEvents` returns -/

/-- Whenever `getChainCodeEvents` returns, it returns an event and no error or
an error and no event. -/
theorem getChainCodeEvents_returned (u : Listener.Utils) (tdata : Option Bytes)
    (event : Option Listener.ChaincodeEvent) (err : Option GoError)
    (h : Listener.getChainCodeEvents u tdata = Listener.Outcome.returned (event, err)) :
    (event ≠ none ∧ err = none) ∨ (event = none ∧ err ≠ none) := by
  unfold Listener.getChainCodeEvents at h
  repeat' split at h
  all_goals first
    | (simp only [Listener.Outcome.returned.injEq, Prod.mk.injEq] at h
       obtain ⟨h1, h2⟩ := h
       subst h1 h2
       simp)
    | simp at h

/-- C17: whenever `getChainCodeEvents` returns, it returns an event and a nil
error, or a nil event and an error, never a nil event and a nil error; so in the
loop of `main` the slot of a valid transaction on which it returns does not
panic. In particular nil transaction bytes give an error, and so does every
envelope whose payload has a channel header of a type other than
ENDORSER_TRANSACTION. -/
theorem C17_event_or_error (u : Listener.Utils) (tdata : Option Bytes)
    (event : Option Listener.ChaincodeEvent) (err : Option GoError)
    (h : Listener.getChainCodeEvents u tdata = Listener.Outcome.returned (event, err)) :
    ((event ≠ none ∧ err = none) ∨ (event = none ∧ err ≠ none))
      ∧ (∀ (chaincodeID : String) (txsFltr : Bytes) (i : Nat),
          u.IsSet txsFltr i = false →
            (Listener.slot u chaincodeID txsFltr i tdata).panicked = false)
      ∧ (∃ e, Listener.getChainCodeEvents u none
          = Listener.Outcome.returned (none, some e))
      ∧ (∀ (data : Bytes) (env : Envelope) (payload : Payload) (hd : Header)
          (ch : ChannelHeader),
          u.GetEnvelopeFromBlock data = (some env, none) →
          u.GetPayload env = (some payload, none) →
          payload.Header = some hd → hd.ChannelHeader = some ch →
          ch.Type_ ≠ u.HeaderType_ENDORSER_TRANSACTION →
          ∃ e, Listener.getChainCodeEvents u (some data)
            = Listener.Outcome.returned (none, some e)) := by
  have hd := getChainCodeEvents_returned u tdata event err h
  refine ⟨hd, ?_, ⟨_, rfl⟩, ?_⟩
  · intro chaincodeID txsFltr i hbit
    rcases hd with ⟨h1, h2⟩ | ⟨h1, h2⟩
    · obtain ⟨ev, rfl⟩ := Option.ne_none_iff_exists'.mp h1
      subst h2
      unfold Listener.slot
      simp only [hbit, h]
      by_cases hl : chaincodeID.length ≠ 0
      · by_cases hc : ev.ChaincodeId = chaincodeID <;> simp [hl, hc]
      · simp [hl]
    · obtain ⟨e, rfl⟩ := Option.ne_none_iff_exists'.mp h2
      unfold Listener.slot
      simp [hbit, h]
  · intro data env payload hd1 ch h1 h2 h3 h4 h5
    exact ⟨GoError.other "No events found",
      by simp [Listener.getChainCodeEvents, h1, h2, h3, h4, h5]⟩

/-- C17 on the sample helpers: the slot `[3, 1]` is an endorser transaction
whose event is found, and it is returned with a nil error. -/
theorem C17_event_or_error_witness :
    (((some { ChaincodeId := "mycc", EventName := "evt" } : Option Listener.ChaincodeEvent)
          ≠ none ∧ (none : Option GoError) = none)
        ∨ ((some { ChaincodeId := "mycc", EventName := "evt" } :
            Option Listener.ChaincodeEvent) = none ∧ (none : Option GoError) ≠ none))
      ∧ (∀ (chaincodeID : String) (txsFltr : Bytes) (i : Nat),
          Listener.sampleUtils.IsSet txsFltr i = false →
            (Listener.slot Listener.sampleUtils chaincodeID txsFltr i
              (some [3, 1])).panicked = false)
      ∧ (∃ e, Listener.getChainCodeEvents Listener.sampleUtils none
          = Listener.Outcome.returned (none, some e))
      ∧ (∀ (data : Bytes) (env : Envelope) (payload : Payload) (hd : Header)
          (ch : ChannelHeader),
          Listener.sampleUtils.GetEnvelopeFromBlock data = (some env, none) →
          Listener.sampleUtils.GetPayload env = (some payload, none) →
          payload.Header = some hd → hd.ChannelHeader = some ch →
          ch.Type_ ≠ Listener.sampleUtils.HeaderType_ENDORSER_TRANSACTION →
          ∃ e, Listener.getChainCodeEvents Listener.sampleUtils (some data)
            = Listener.Outcome.returned (none, some e)) :=
  C17_event_or_error Listener.sampleUtils (some [3, 1])
    (some { ChaincodeId := "mycc", EventName := "evt" }) none (by decide)

/-! ## The block listener: the loop over the slots of a block -/

/-- In the body of the loop for the slot `i`, `getChainCodeEvents` is called
exactly on that slot and exactly when its bit is not set. -/
theorem slot_extract (u : Listener.Utils) (chaincodeID : String) (txsFltr : Bytes)
    (i j : Nat) (r r1 : Option Bytes) :
    Listener.Action.getChainCodeEvents j r1
        ∈ (Listener.slot u chaincodeID txsFltr i r).actions
      ↔ (j = i ∧ r1 = r ∧ u.IsSet txsFltr i = false) := by
  unfold Listener.slot
  repeat' split
  all_goals simp_all

/-- In the body of the loop for the slot `i`, the transaction is reported as
invalid exactly when the bit of the slot is set and `getTxPayload` gives a
payload. -/
theorem slot_banner (u : Listener.Utils) (chaincodeID : String) (txsFltr : Bytes)
    (i j : Nat) (r : Option Bytes) :
    Listener.Action.invalidBanner j ∈ (Listener.slot u chaincodeID txsFltr i r).actions
      ↔ (j = i ∧ u.IsSet txsFltr i = true ∧ (Listener.getTxPayload u r).1 ≠ none) := by
  unfold Listener.slot
  repeat' split
  all_goals simp_all

/-- In the body of the loop for the slot `i`, an event is printed only for that
slot and only when its bit is not set. -/
theorem slot_event (u : Listener.Utils) (chaincodeID : String) (txsFltr : Bytes)
    (i j : Nat) (r : Option Bytes) (ev : Listener.ChaincodeEvent)
    (h : Listener.Action.printEvent j ev
      ∈ (Listener.slot u chaincodeID txsFltr i r).actions) :
    j = i ∧ u.IsSet txsFltr i = false := by
  unfold Listener.slot at h
  repeat' split at h
  all_goals simp_all

/-- One step of the loop over the slots of a block. -/
theorem mainBlock_cons (u : Listener.Utils) (chaincodeID : String) (txsFltr : Bytes)
    (n : Nat) (r : Option Bytes) (rest : List (Option Bytes)) :
    Listener.mainBlock u chaincodeID txsFltr n (r :: rest) =
      if (Listener.slot u chaincodeID txsFltr n r).panicked = true then
        Listener.slot u chaincodeID txsFltr n r
      else
        { actions := (Listener.slot u chaincodeID txsFltr n r).actions
            ++ (Listener.mainBlock u chaincodeID txsFltr (n + 1) rest).actions,
          panicked := (Listener.mainBlock u chaincodeID txsFltr (n + 1) rest).panicked } := by
  simp [Listener.mainBlock]

/-- Every call of `getChainCodeEvents` in the loop is on a slot of the block
whose bit is not set. -/
theorem mainBlock_extract (u : Listener.Utils) (chaincodeID : String) (txsFltr : Bytes)
    (n : Nat) (data : List (Option Bytes)) (j : Nat) (r1 : Option Bytes)
    (h : Listener.Action.getChainCodeEvents j r1
      ∈ (Listener.mainBlock u chaincodeID txsFltr n data).actions) :
    ∃ k, j = n + k ∧ data[k]? = some r1 ∧ u.IsSet txsFltr j = false := by
  induction data generalizing n with
  | nil => simp [Listener.mainBlock] at h
  | cons r rest ih =>
    rw [mainBlock_cons] at h
    by_cases hp : (Listener.slot u chaincodeID txsFltr n r).panicked = true
    · rw [if_pos hp] at h
      obtain ⟨h1, h2, h3⟩ := (slot_extract u chaincodeID txsFltr n j r r1).mp h
      exact ⟨0, by omega, by simp [h2], by rw [h1]; exact h3⟩
    · rw [if_neg hp] at h
      rcases List.mem_append.mp h with h | h
      · obtain ⟨h1, h2, h3⟩ := (slot_extract u chaincodeID txsFltr n j r r1).mp h
        exact ⟨0, by omega, by simp [h2], by rw [h1]; exact h3⟩
      · obtain ⟨k, h1, h2, h3⟩ := ih (n + 1) h
        exact ⟨k + 1, by omega, by simpa using h2, h3⟩

/-- Every report of an invalid transaction in the loop is for a slot of the
block whose bit is set and for which `getTxPayload` gives a payload. -/
theorem mainBlock_banner (u : Listener.Utils) (chaincodeID : String) (txsFltr : Bytes)
    (n : Nat) (data : List (Option Bytes)) (j : Nat)
    (h : Listener.Action.invalidBanner j
      ∈ (Listener.mainBlock u chaincodeID txsFltr n data).actions) :
    ∃ k r, j = n + k ∧ data[k]? = some r ∧ u.IsSet txsFltr j = true
      ∧ (Listener.getTxPayload u r).1 ≠ none := by
  induction data generalizing n with
  | nil => simp [Listener.mainBlock] at h
  | cons r rest ih =>
    rw [mainBlock_cons] at h
    by_cases hp : (Listener.slot u chaincodeID txsFltr n r).panicked = true
    · rw [if_pos hp] at h
      obtain ⟨h1, h2, h3⟩ := (slot_banner u chaincodeID txsFltr n j r).mp h
      exact ⟨0, r, by omega, by simp, by rw [h1]; exact h2, h3⟩
    · rw [if_neg hp] at h
      rcases List.mem_append.mp h with h | h
      · obtain ⟨h1, h2, h3⟩ := (slot_banner u chaincodeID txsFltr n j r).mp h
        exact ⟨0, r, by omega, by simp, by rw [h1]; exact h2, h3⟩
      · obtain ⟨k, r2, h1, h2, h3, h4⟩ := ih (n + 1) h
        exact ⟨k + 1, r2, by omega, by simpa using h2, h3, h4⟩

/-- Every event printed in the loop is for a slot whose bit is not set. -/
theorem mainBlock_event (u : Listener.Utils) (chaincodeID : String) (txsFltr : Bytes)
    (n : Nat) (data : List (Option Bytes)) (j : Nat) (ev : Listener.ChaincodeEvent)
    (h : Listener.Action.printEvent j ev
      ∈ (Listener.mainBlock u chaincodeID txsFltr n data).actions) :
    u.IsSet txsFltr j = false := by
  induction data generalizing n with
  | nil => simp [Listener.mainBlock] at h
  | cons r rest ih =>
    rw [mainBlock_cons] at h
    by_cases hp : (Listener.slot u chaincodeID txsFltr n r).panicked = true
    · rw [if_pos hp] at h
      obtain ⟨h1, h2⟩ := slot_event u chaincodeID txsFltr n j r ev h
      rw [h1]; exact h2
    · rw [if_neg hp] at h
      rcases List.mem_append.mp h with h | h
      · obtain ⟨h1, h2⟩ := slot_event u chaincodeID txsFltr n j r ev h
        rw [h1]; exact h2
      · exact ih (n + 1) h

/-- A loop that does not panic visits every slot of the block: it calls
`getChainCodeEvents` on a slot whose bit is not set, and reports a slot whose
bit is set when `getTxPayload` gives a payload for it. -/
theorem mainBlock_complete (u : Listener.Utils) (chaincodeID : String) (txsFltr : Bytes)
    (n : Nat) (data : List (Option Bytes)) (k : Nat) (r : Option Bytes)
    (hp : (Listener.mainBlock u chaincodeID txsFltr n data).panicked = false)
    (hk : data[k]? = some r) :
    (u.IsSet txsFltr (n + k) = false →
        Listener.Action.getChainCodeEvents (n + k) r
          ∈ (Listener.mainBlock u chaincodeID txsFltr n data).actions)
      ∧ (u.IsSet txsFltr (n + k) = true → (Listener.getTxPayload u r).1 ≠ none →
          Listener.Action.invalidBanner (n + k)
            ∈ (Listener.mainBlock u chaincodeID txsFltr n data).actions) := by
  induction data generalizing n k with
  | nil => simp at hk
  | cons r0 rest ih =>
    rw [mainBlock_cons] at hp ⊢
    by_cases hs : (Listener.slot u chaincodeID txsFltr n r0).panicked = true
    · rw [if_pos hs] at hp
      rw [hs] at hp
      cases hp
    · rw [if_neg hs] at hp ⊢
      cases k with
      | zero =>
        simp only [List.getElem?_cons_zero, Option.some.injEq] at hk
        subst hk
        refine ⟨fun hb => List.mem_append_left _ ?_, fun hb ht => List.mem_append_left _ ?_⟩
        · exact (slot_extract u chaincodeID txsFltr n (n + 0) r0 r0).mpr ⟨rfl, rfl, hb⟩
        · exact (slot_banner u chaincodeID txsFltr n (n + 0) r0).mpr ⟨rfl, hb, ht⟩
      | succ k1 =>
        simp only [List.getElem?_cons_succ] at hk
        obtain ⟨h1, h2⟩ := ih (n + 1) k1 hp hk
        have e : n + (k1 + 1) = n + 1 + k1 := by omega
        rw [e]
        exact ⟨fun hb => List.mem_append_right _ (h1 hb),
          fun hb ht => List.mem_append_right _ (h2 hb ht)⟩

/-- C16, as stated, fails: a slot whose bit is set is not reported as invalid
when no payload can be extracted from it. With the bit of slot 0 set, a block
whose slot 0 is nil, or holds bytes that do not decode, is passed over with the
call of `getTxPayload` only. -/
theorem C16_counterexample :
    Listener.sampleUtils.IsSet [1] 0 = true
      ∧ Listener.mainBlock Listener.sampleUtils "mycc" [1] 0 [none] =
          { actions := [Listener.Action.getTxPayload 0 none], panicked := false }
      ∧ Listener.Action.invalidBanner 0
          ∉ (Listener.mainBlock Listener.sampleUtils "mycc" [1] 0 [none]).actions
      ∧ Listener.mainBlock Listener.sampleUtils "mycc" [1] 0 [some [255, 0]] =
          { actions := [Listener.Action.getTxPayload 0 (some [255, 0])],
            panicked := false } := by
  decide

/-- C16, amended: in a pass of the loop of `main` over a block that does not
panic, for every slot `i` of the block, `getChainCodeEvents` is applied to the
slot if and only if bit `i` of the filter is not set; a slot whose bit is set is
reported as invalid if and only if `getTxPayload` gives a payload for it, and
`getChainCodeEvents` is not applied to it and no event is printed for it. -/
theorem C16_extract_iff_bit_not_set (u : Listener.Utils) (chaincodeID : String)
    (txsFltr : Bytes) (data : List (Option Bytes)) (i : Nat) (r : Option Bytes)
    (hp : (Listener.mainBlock u chaincodeID txsFltr 0 data).panicked = false)
    (hi : data[i]? = some r) :
    (Listener.Action.getChainCodeEvents i r
          ∈ (Listener.mainBlock u chaincodeID txsFltr 0 data).actions
        ↔ u.IsSet txsFltr i = false)
      ∧ (u.IsSet txsFltr i = true →
          (Listener.Action.invalidBanner i
                ∈ (Listener.mainBlock u chaincodeID txsFltr 0 data).actions
              ↔ (Listener.getTxPayload u r).1 ≠ none)
            ∧ (∀ r1, Listener.Action.getChainCodeEvents i r1
                ∉ (Listener.mainBlock u chaincodeID txsFltr 0 data).actions)
            ∧ (∀ ev, Listener.Action.printEvent i ev
                ∉ (Listener.mainBlock u chaincodeID txsFltr 0 data).actions)) := by
  obtain ⟨h1, h2⟩ := mainBlock_complete u chaincodeID txsFltr 0 data i r hp hi
  rw [Nat.zero_add] at h1 h2
  refine ⟨⟨fun h => ?_, h1⟩, fun hb => ⟨⟨fun h => ?_, h2 hb⟩, fun r1 h => ?_, fun ev h => ?_⟩⟩
  · obtain ⟨k, _, _, h3⟩ := mainBlock_extract u chaincodeID txsFltr 0 data i r h
    exact h3
  · obtain ⟨k, r2, h3, h4, _, h6⟩ := mainBlock_banner u chaincodeID txsFltr 0 data i h
    have hk : k = i := by omega
    subst hk
    rw [hi] at h4
    cases h4
    exact h6
  · obtain ⟨k, _, _, h3⟩ := mainBlock_extract u chaincodeID txsFltr 0 data i r1 h
    rw [hb] at h3
    cases h3
  · have h3 := mainBlock_event u chaincodeID txsFltr 0 data i ev h
    rw [hb] at h3
    cases h3

/-- C16 on the sample helpers: in a block of two endorser transactions of which
the first is marked invalid, the first is reported and the event of the second
is extracted. -/
theorem C16_extract_iff_bit_not_set_witness :
    (Listener.Action.getChainCodeEvents 1 (some [3, 1])
          ∈ (Listener.mainBlock Listener.sampleUtils "mycc" [1] 0
              [some [3, 1], some [3, 1]]).actions
        ↔ Listener.sampleUtils.IsSet [1] 1 = false)
      ∧ (Listener.sampleUtils.IsSet [1] 1 = true →
          (Listener.Action.invalidBanner 1
                ∈ (Listener.mainBlock Listener.sampleUtils "mycc" [1] 0
                    [some [3, 1], some [3, 1]]).actions
              ↔ (Listener.getTxPayload Listener.sampleUtils (some [3, 1])).1 ≠ none)
            ∧ (∀ r1, Listener.Action.getChainCodeEvents 1 r1
                ∉ (Listener.mainBlock Listener.sampleUtils "mycc" [1] 0
                    [some [3, 1], some [3, 1]]).actions)
            ∧ (∀ ev, Listener.Action.printEvent 1 ev
                ∉ (Listener.mainBlock Listener.sampleUtils "mycc" [1] 0
                    [some [3, 1], some [3, 1]]).actions)) :=
  C16_extract_iff_bit_not_set Listener.sampleUtils "mycc" [1]
    [some [3, 1], some [3, 1]] 1 (some [3, 1]) (by decide) (by decide)

/-! ## The outcome of an envelope -/

/-- The pass that receives the envelope `msg` sends one status, and that status
is the outcome of `msg`: BAD_REQUEST when `msg` has no valid channel header or
is a CONFIG_UPDATE that the processor rejects, INTERNAL_SERVER_ERROR when the
output of the processor has no valid channel header, and otherwise NOT_FOUND,
BAD_REQUEST, SERVICE_UNAVAILABLE or SUCCESS as the lookup, the filter chain and
the sink decide for the envelope in hand. -/
theorem HandleBody_outcome {σ : Type} (pb : Proto) (bh : handlerImpl σ)
    (srv : AtomicBroadcast_BroadcastServer σ) (s s1 : σ) (msg : Envelope)
    (hrecv : srv.Recv s = (Except.ok msg, s1)) :
    ∃ st, sent (HandleBody pb bh srv s).trace = [st]
      ∧ received (HandleBody pb bh srv s).trace = [msg]
      ∧ (
        ∃ r : Option GoError,
          (validChannelHeader (pb.Unmarshal msg.Payload { Header := none, Data := [] }).2 = none
            ∧ st = Status.BAD_REQUEST
            ∧ (HandleBody pb bh srv s).trace = [Event.Recv (Except.ok msg), Event.Send st r])
          ∨ ∃ ch, validChannelHeader (pb.Unmarshal msg.Payload { Header := none, Data := [] }).2 = some ch
            ∧ ((ch.Type_ = pb.HeaderType_CONFIG_UPDATE
                ∧ ∃ perr, st = Status.BAD_REQUEST
                  ∧ (HandleBody pb bh srv s).trace = [Event.Recv (Except.ok msg), Event.Process msg (Except.error perr),
                           Event.Send st r])
              ∨ (ch.Type_ = pb.HeaderType_CONFIG_UPDATE
                ∧ ∃ msg2, validChannelHeader (pb.Unmarshal msg2.Payload
                          (pb.Unmarshal msg.Payload { Header := none, Data := [] }).2).2 = none
                  ∧ st = Status.INTERNAL_SERVER_ERROR
                  ∧ (HandleBody pb bh srv s).trace = [Event.Recv (Except.ok msg), Event.Process msg (Except.ok msg2),
                           Event.Send st r])
              ∨ ∃ (hand : Envelope) (ch1 : ChannelHeader) (pre : List Event),
                  ((ch.Type_ ≠ pb.HeaderType_CONFIG_UPDATE ∧ hand = msg ∧ ch1 = ch
                      ∧ pre = [Event.Recv (Except.ok msg)])
                    ∨ (ch.Type_ = pb.HeaderType_CONFIG_UPDATE
                      ∧ validChannelHeader (pb.Unmarshal hand.Payload
                          (pb.Unmarshal msg.Payload { Header := none, Data := [] }).2).2 = some ch1
                      ∧ pre = [Event.Recv (Except.ok msg), Event.Process msg (Except.ok hand)]))
                  ∧ ((st = Status.NOT_FOUND
                      ∧ (HandleBody pb bh srv s).trace = pre ++ [Event.GetChain ch1.ChannelId none, Event.Send st r])
                    ∨ ∃ support,
                        (∃ ferr, st = Status.BAD_REQUEST
                          ∧ (HandleBody pb bh srv s).trace = pre ++ [Event.GetChain ch1.ChannelId (some support),
                              Event.Apply support hand (some ferr), Event.Send st r])
                        ∨ (st = Status.SERVICE_UNAVAILABLE
                          ∧ (HandleBody pb bh srv s).trace = pre ++ [Event.GetChain ch1.ChannelId (some support),
                              Event.Apply support hand none, Event.Enqueue support hand false,
                              Event.Send st r])
                        ∨ (st = Status.SUCCESS
                          ∧ (HandleBody pb bh srv s).trace = pre ++ [Event.GetChain ch1.ChannelId (some support),
                              Event.Apply support hand none, Event.Enqueue support hand true,
                              Event.Send st r])))) := by
  cases hv : validChannelHeader
      (pb.Unmarshal msg.Payload { Header := none, Data := [] }).2 with
  | none =>
    have h := HandleBody_malformed pb bh srv s s1 _ msg _ hrecv hv rfl
    refine ⟨Status.BAD_REQUEST, by rw [h]; simp [sent], by rw [h]; simp [received],
      (srv.Send Status.BAD_REQUEST s1).1, Or.inl ⟨rfl, rfl, by rw [h]⟩⟩
  | some ch =>
    by_cases ht : ch.Type_ = pb.HeaderType_CONFIG_UPDATE
    · cases hp : (bh.sm.Process msg s1).1 with
      | error perr =>
        have h := HandleBody_process_failed pb bh srv s s1 _ _ msg ch perr _ hrecv hv ht
          (Prod.ext hp rfl) rfl
        refine ⟨Status.BAD_REQUEST, by rw [h]; simp [sent], by rw [h]; simp [received],
          (srv.Send Status.BAD_REQUEST (bh.sm.Process msg s1).2).1,
          Or.inr ⟨ch, rfl, Or.inl ⟨ht, perr, rfl, by rw [h]⟩⟩⟩
      | ok msg2 =>
        cases hv2 : validChannelHeader (pb.Unmarshal msg2.Payload
            (pb.Unmarshal msg.Payload { Header := none, Data := [] }).2).2 with
        | none =>
          have h := HandleBody_bad_result pb bh srv s s1 _ _ msg msg2 ch _ hrecv hv ht
            (Prod.ext hp rfl) hv2 rfl
          refine ⟨Status.INTERNAL_SERVER_ERROR, by rw [h]; simp [sent],
            by rw [h]; simp [received],
            (srv.Send Status.INTERNAL_SERVER_ERROR (bh.sm.Process msg s1).2).1,
            Or.inr ⟨ch, rfl, Or.inr (Or.inl ⟨ht, msg2, hv2, rfl, by rw [h]⟩)⟩⟩
        | some ch2 =>
          have h := HandleBody_of_proceed pb bh srv s _ msg2 ch2 _
            (intake_config_update pb bh srv s s1 _ msg msg2 ch ch2 hrecv hv ht
              (Prod.ext hp rfl) hv2)
          obtain ⟨g, tail, h1, h2⟩ := route_cases bh srv msg2 ch2 (bh.sm.Process msg s1).2
            [Event.Recv (Except.ok msg), Event.Process msg (Except.ok msg2)]
          rw [h, h1]
          rcases h2 with ⟨rfl, r, rfl⟩ |
            ⟨support, rfl, ⟨ferr, r, rfl⟩ | ⟨r, rfl⟩ | ⟨r, rfl⟩⟩
          · exact ⟨Status.NOT_FOUND, by simp [sent], by simp [received], r,
              Or.inr ⟨ch, rfl, Or.inr (Or.inr ⟨msg2, ch2, _, Or.inr ⟨ht, hv2, rfl⟩,
                Or.inl ⟨rfl, rfl⟩⟩)⟩⟩
          · exact ⟨Status.BAD_REQUEST, by simp [sent], by simp [received], r,
              Or.inr ⟨ch, rfl, Or.inr (Or.inr ⟨msg2, ch2, _, Or.inr ⟨ht, hv2, rfl⟩,
                Or.inr ⟨support, Or.inl ⟨ferr, rfl, rfl⟩⟩⟩)⟩⟩
          · exact ⟨Status.SERVICE_UNAVAILABLE, by simp [sent], by simp [received], r,
              Or.inr ⟨ch, rfl, Or.inr (Or.inr ⟨msg2, ch2, _, Or.inr ⟨ht, hv2, rfl⟩,
                Or.inr ⟨support, Or.inr (Or.inl ⟨rfl, rfl⟩)⟩⟩)⟩⟩
          · exact ⟨Status.SUCCESS, by simp [sent], by simp [received], r,
              Or.inr ⟨ch, rfl, Or.inr (Or.inr ⟨msg2, ch2, _, Or.inr ⟨ht, hv2, rfl⟩,
                Or.inr ⟨support, Or.inr (Or.inr ⟨rfl, rfl⟩)⟩⟩)⟩⟩
    · have h := HandleBody_of_proceed pb bh srv s _ msg ch _
        (intake_plain pb bh srv s s1 msg ch hrecv hv ht)
      obtain ⟨g, tail, h1, h2⟩ := route_cases bh srv msg ch s1
        [Event.Recv (Except.ok msg)]
      rw [h, h1]
      rcases h2 with ⟨rfl, r, rfl⟩ |
        ⟨support, rfl, ⟨ferr, r, rfl⟩ | ⟨r, rfl⟩ | ⟨r, rfl⟩⟩
      · exact ⟨Status.NOT_FOUND, by simp [sent], by simp [received], r,
          Or.inr ⟨ch, rfl, Or.inr (Or.inr ⟨msg, ch, _, Or.inl ⟨ht, rfl, rfl, rfl⟩,
            Or.inl ⟨rfl, rfl⟩⟩)⟩⟩
      · exact ⟨Status.BAD_REQUEST, by simp [sent], by simp [received], r,
          Or.inr ⟨ch, rfl, Or.inr (Or.inr ⟨msg, ch, _, Or.inl ⟨ht, rfl, rfl, rfl⟩,
            Or.inr ⟨support, Or.inl ⟨ferr, rfl, rfl⟩⟩⟩)⟩⟩
      · exact ⟨Status.SERVICE_UNAVAILABLE, by simp [sent], by simp [received], r,
          Or.inr ⟨ch, rfl, Or.inr (Or.inr ⟨msg, ch, _, Or.inl ⟨ht, rfl, rfl, rfl⟩,
            Or.inr ⟨support, Or.inr (Or.inl ⟨rfl, rfl⟩)⟩⟩)⟩⟩
      · exact ⟨Status.SUCCESS, by simp [sent], by simp [received], r,
          Or.inr ⟨ch, rfl, Or.inr (Or.inr ⟨msg, ch, _, Or.inl ⟨ht, rfl, rfl, rfl⟩,
            Or.inr ⟨support, Or.inr (Or.inr ⟨rfl, rfl⟩)⟩⟩)⟩⟩

/-- C9: in every run of `Handle`, however many passes it has made, the trace is
a sequence of segments, one per received envelope and in receipt order, each
being the Recv of the envelope, then collaborator calls only, then exactly one
Send, possibly followed by one failed Recv; so the status of an envelope is sent
before the next Recv, and as many statuses are sent as envelopes are received.
The envelopes received and the statuses sent are, in order, those of the list
`outcomes`, whose entry `i` is the envelope and the status of segment `i`, and
that status is the outcome of that envelope: BAD_REQUEST when the envelope has
no valid channel header or is a CONFIG_UPDATE that the processor rejects,
INTERNAL_SERVER_ERROR when the output of the processor has no valid channel
header, and otherwise NOT_FOUND, BAD_REQUEST, SERVICE_UNAVAILABLE or SUCCESS as
the lookup, the filter chain and the sink answered in that segment for the
envelope in hand. -/
theorem C9_one_status_per_envelope {σ : Type} (pb : Proto) (bh : handlerImpl σ)
    (srv : AtomicBroadcast_BroadcastServer σ) (fuel : Nat) (s : σ) :
    (sent (Handle pb bh srv fuel s).trace).length
        = (received (Handle pb bh srv fuel s).trace).length
      ∧ ∃ (segs : List (List Event)) (last : List Event)
          (outcomes : List (Envelope × Status)),
          (Handle pb bh srv fuel s).trace = segs.flatten ++ last
          ∧ (∀ seg ∈ segs, ∃ msg mid st r,
              seg = Event.Recv (Except.ok msg) :: (mid ++ [Event.Send st r])
              ∧ ∀ ev ∈ mid, ev.isCall = true)
          ∧ (last = [] ∨ ∃ err, last = [Event.Recv (Except.error err)])
          ∧ received (Handle pb bh srv fuel s).trace = outcomes.map Prod.fst
          ∧ sent (Handle pb bh srv fuel s).trace = outcomes.map Prod.snd
          ∧ List.Forall₂
            (fun (o : Envelope × Status) (seg : List Event) =>
              ∃ r : Option GoError,
                (validChannelHeader (pb.Unmarshal o.1.Payload { Header := none, Data := [] }).2 = none
                  ∧ o.2 = Status.BAD_REQUEST
                  ∧ seg = [Event.Recv (Except.ok o.1), Event.Send o.2 r])
                ∨ ∃ ch, validChannelHeader (pb.Unmarshal o.1.Payload { Header := none, Data := [] }).2 = some ch
                  ∧ ((ch.Type_ = pb.HeaderType_CONFIG_UPDATE
                      ∧ ∃ perr, o.2 = Status.BAD_REQUEST
                        ∧ seg = [Event.Recv (Except.ok o.1), Event.Process o.1 (Except.error perr),
                                 Event.Send o.2 r])
                    ∨ (ch.Type_ = pb.HeaderType_CONFIG_UPDATE
                      ∧ ∃ msg2, validChannelHeader (pb.Unmarshal msg2.Payload
                                      (pb.Unmarshal o.1.Payload { Header := none, Data := [] }).2).2 = none
                        ∧ o.2 = Status.INTERNAL_SERVER_ERROR
                        ∧ seg = [Event.Recv (Except.ok o.1), Event.Process o.1 (Except.ok msg2),
                                 Event.Send o.2 r])
                    ∨ ∃ (hand : Envelope) (ch1 : ChannelHeader) (pre : List Event),
                        ((ch.Type_ ≠ pb.HeaderType_CONFIG_UPDATE ∧ hand = o.1 ∧ ch1 = ch
                            ∧ pre = [Event.Recv (Except.ok o.1)])
                          ∨ (ch.Type_ = pb.HeaderType_CONFIG_UPDATE
                            ∧ validChannelHeader (pb.Unmarshal hand.Payload
                                      (pb.Unmarshal o.1.Payload { Header := none, Data := [] }).2).2 = some ch1
                            ∧ pre = [Event.Recv (Except.ok o.1), Event.Process o.1 (Except.ok hand)]))
                        ∧ ((o.2 = Status.NOT_FOUND
                            ∧ seg = pre ++ [Event.GetChain ch1.ChannelId none, Event.Send o.2 r])
                          ∨ ∃ support,
                              (∃ ferr, o.2 = Status.BAD_REQUEST
                                ∧ seg = pre ++ [Event.GetChain ch1.ChannelId (some support),
                                    Event.Apply support hand (some ferr), Event.Send o.2 r])
                              ∨ (o.2 = Status.SERVICE_UNAVAILABLE
                                ∧ seg = pre ++ [Event.GetChain ch1.ChannelId (some support),
                                    Event.Apply support hand none, Event.Enqueue support hand false,
                                    Event.Send o.2 r])
                              ∨ (o.2 = Status.SUCCESS
                                ∧ seg = pre ++ [Event.GetChain ch1.ChannelId (some support),
                                    Event.Apply support hand none, Event.Enqueue support hand true,
                                    Event.Send o.2 r]))))
            outcomes segs := by
  induction fuel generalizing s with
  | zero =>
    exact ⟨rfl, [], [], [], rfl, by simp, Or.inl rfl, rfl, rfl, List.Forall₂.nil⟩
  | succ k ih =>
    cases hr : (srv.Recv s).1 with
    | error err =>
      have hb := HandleBody_recv_error pb bh srv s _ err (Prod.ext hr rfl)
      rw [Handle_ret pb bh srv k s _ (by rw [hb])]
      simp only []
      rw [hb]
      exact ⟨rfl, [], [Event.Recv (Except.error err)], [], rfl, by simp,
        Or.inr ⟨err, rfl⟩, rfl, rfl, List.Forall₂.nil⟩
    | ok msg =>
      obtain ⟨st, hs, hrc, hbig⟩ :=
        HandleBody_outcome pb bh srv s _ msg (Prod.ext hr rfl)
      have hshape : ∃ msg1 mid st1 r1,
          (HandleBody pb bh srv s).trace
              = Event.Recv (Except.ok msg1) :: (mid ++ [Event.Send st1 r1])
            ∧ ∀ ev ∈ mid, ev.isCall = true := by
        rcases HandleBody_shape pb bh srv s with ⟨err, h1, _⟩ | ⟨m1, mid, st1, r1, h1, h2, _⟩
        · rw [h1] at hrc
          simp [received] at hrc
        · exact ⟨m1, mid, st1, r1, h1, h2⟩
      cases hf : (HandleBody pb bh srv s).flow with
      | ret err =>
        rw [Handle_ret pb bh srv k s err hf]
        simp only []
        refine ⟨by rw [hs, hrc]; rfl, [(HandleBody pb bh srv s).trace], [], [(msg, st)],
          by simp, ?_, Or.inl rfl, by rw [hrc]; rfl, by rw [hs]; rfl,
          List.Forall₂.cons hbig List.Forall₂.nil⟩
        intro seg hseg
        rw [List.mem_singleton] at hseg
        rw [hseg]
        exact hshape
      | next =>
        rw [Handle_succ_next pb bh srv k s hf]
        simp only []
        obtain ⟨h5, segs, last, outs, h6, h7, h8, h9, h10, h11⟩ :=
          ih (HandleBody pb bh srv s).state
        refine ⟨by simp [sent_append, received_append, hs, hrc, h5],
          (HandleBody pb bh srv s).trace :: segs, last, (msg, st) :: outs,
          by simp [h6], ?_, h8, by simp [received_append, hrc, h9],
          by simp [sent_append, hs, h10], List.Forall₂.cons hbig h11⟩
        intro seg hseg
        rcases List.mem_cons.mp hseg with rfl | hseg
        · exact hshape
        · exact h7 seg hseg

end Broadcast
